import Mathlib

/-!
Verification of the dino moderation core: the activity-envelope data model,
the per-verb request validator (`dino/validation/request_validator.py`), the
moderation event dispatcher (`dino/endpoint/queue.py`), the ACL evaluation
engine, and the `count_users_in_rooms` operational job, shallowly embedded
in Lean.

String-typed fields of a parsed activity envelope may be absent (`None` in
Python); they are modelled as `Option String`.  Python truthiness of such a
field (`x or d`, `if not x`) and blank checks (`x is None or x.strip() == ''`)
get explicit helpers below.
-/

/-- An attachment: `(objectType, content)` pair. -/
structure Attachment where
  objectType : String
  content : String
deriving DecidableEq, Repr

/-- Actor part of an activity envelope. -/
structure ActActor where
  id : Option String
  url : Option String
  displayName : Option String
  attachments : Option (List Attachment)
deriving DecidableEq, Repr

/-- Object part of an activity envelope. -/
structure ActObject where
  id : Option String
  url : Option String
  content : Option String
  summary : Option String
  displayName : Option String
  attachments : List Attachment
deriving DecidableEq, Repr

/-- Target part of an activity envelope. -/
structure ActTarget where
  id : Option String
  url : Option String
  objectType : Option String
  displayName : Option String
deriving DecidableEq, Repr

/-- Activity-streams envelope, the unit of transport between client,
internal bus, external bus and the dispatcher.  `hasTarget` models
`hasattr(activity, 'target')` for envelopes parsed without a target part
(`activity.target is None` in Python); when it is false the `target`
component carries no information. -/
structure Activity where
  id : String
  verb : String
  actor : ActActor
  object : ActObject
  target : ActTarget
  hasTarget : Bool := true
deriving DecidableEq, Repr

/-- Python whitespace as stripped by `str.strip()`. -/
def pyIsSpace (c : Char) : Bool :=
  c = ' ' ∨ c.toNat = 9 ∨ c.toNat = 10 ∨ c.toNat = 13 ∨ c.toNat = 11 ∨ c.toNat = 12

/-- Python `str.strip()`. -/
def pyStrip (s : String) : String :=
  ⟨((s.data.dropWhile pyIsSpace).reverse.dropWhile pyIsSpace).reverse⟩

/-- Does the first list start with the second? -/
def listStarts : List Char → List Char → Bool
  | _, [] => true
  | [], _ :: _ => false
  | c :: cs, d :: ds => c = d && listStarts cs ds

/-- Python `str.startswith`. -/
def pyStartsWith (s p : String) : Bool := listStarts s.data p.data

/-- Python `x is None or x.strip() == ''`. -/
def pyBlank : Option String → Bool
  | none => true
  | some s => pyStrip s = ""

/-- Python `x is None or x == ''` (no strip). -/
def pyEmpty : Option String → Bool
  | none => true
  | some s => s = ""

/-- Python truthiness of an optional string: `None` and `''` are falsy. -/
def pyTruthy : Option String → Bool
  | none => false
  | some s => s ≠ ""

/-- Python `'%s' % x` rendering of a possibly absent string. -/
def pyStr : Option String → String
  | none => "None"
  | some s => s

/-- Python `x or d` for an optional string with a string default. -/
def pyOr (x : Option String) (d : String) : String :=
  match x with
  | none => d
  | some s => if s = "" then d else s

/-! ## Request validator (`dino/validation/request_validator.py`)

Each handler returns `(ok, code, reason)`; the Python code returns
`True, None, None` on success and `False, 400, msg` on failure, so the
code and reason components are `Option`s.  The persistence, session and
ACL collaborators consulted by the handlers (`utils.*`, `environ.env.*`,
`validation.acl`, `validation.request`) are ports, modelled as the fields
of `VEnv`. -/

/-- The `(ok, code, reason)` triple returned by every handler. -/
def Triple := Bool × Option Nat × Option String
deriving DecidableEq, Repr

/-- `return True, None, None`. -/
def accepted : Triple := (true, none, none)

/-- `return False, 400, msg`. -/
def rejected (msg : String) : Triple := (false, some 400, some msg)

/-- Ports consulted by the request validator (persistence lookups, roles,
session, ACL engine results).  User and room/channel ids coming out of an
envelope may be absent, so the lookups take `Option String` where the
Python code can pass `None` through. -/
structure VEnv where
  roomExists : Option String → Option String → Bool
  channelExists : Option String → Bool
  roomNameExists : Option String → Option String → Bool
  isOwner : Option String → Option String → Bool
  isOwnerChannel : Option String → Option String → Bool
  isModerator : Option String → Option String → Bool
  isAdmin : Option String → Bool
  isUserInRoom : Option String → Option String → Bool
  canSendCrossGroup : Option String → Option String → Bool
  userAllowedToDeleteMessage : Option String → Option String → Bool
  isBanned : Option String → Option String → Bool × String
  validateAcl : Bool × Option String
  validateRequest : Bool × Option String
  aclKeys : List String
  isAclValid : String → String → Bool
  validateLogin : Option String → String → Bool × Option String × List (String × String)
  session : List (String × String)

/-- Association-list update, modelling `session[k] = v`. -/
def setAssoc (l : List (String × String)) (k v : String) : List (String × String) :=
  (k, v) :: l.filter (fun p => p.1 ≠ k)

namespace RequestValidator

/-- `RequestValidator.on_message`. -/
def on_message (env : VEnv) (a : Activity) : Triple :=
  let room_id := a.target.id
  let from_room_id := a.actor.url
  if pyEmpty room_id then rejected "no room id specified when sending message"
  else if a.target.objectType = some "group" then
    let channel_id := a.object.url
    if pyEmpty channel_id then rejected "no channel id specified when sending message"
    else if ¬ env.channelExists channel_id then
      rejected ("channel " ++ pyStr channel_id ++ " does not exists")
    else if ¬ env.roomExists channel_id room_id then
      rejected ("target room " ++ pyStr room_id ++ " does not exist")
    else if from_room_id ≠ none ∧ from_room_id ≠ room_id ∧
        ¬ env.roomExists channel_id from_room_id then
      rejected ("origin room " ++ pyStr from_room_id ++ " does not exist")
    else if ¬ env.isUserInRoom a.actor.id room_id ∧
        ¬ env.canSendCrossGroup from_room_id room_id then
      rejected ("user not allowed to send cross-group msg from " ++
        pyStr from_room_id ++ " to " ++ pyStr room_id)
    else accepted
  else accepted

/-- `RequestValidator.on_delete`. -/
def on_delete (env : VEnv) (a : Activity) : Triple :=
  if ¬ env.userAllowedToDeleteMessage a.target.id a.actor.id then
    rejected ("not allowed to remove message in room " ++ pyStr a.target.id)
  else accepted

/-- `RequestValidator.on_login`.  Attachments on the actor are copied into
the session before the token check, exactly as the loop over
`activity.actor.attachments` does. -/
def on_login (env : VEnv) (a : Activity) : Triple :=
  let user_id := a.actor.id
  let bd := env.isBanned user_id none
  if bd.1 then rejected ("user is banned from chatting for: " ++ bd.2 ++ "s")
  else
    let sess := match a.actor.attachments with
      | none => env.session
      | some atts => atts.foldl (fun s (at_ : Attachment) => setAssoc s at_.objectType at_.content) env.session
    if (sess.lookup "token").isNone then rejected "no token in session"
    else
      let token := (sess.lookup "token").getD ""
      let v := env.validateLogin user_id token
      if ¬ v.1 then (false, some 400, v.2.1)
      else accepted

/-- `RequestValidator.on_ban`.  Note: the `utils.room_exists` check is made
unconditionally, before the global/room scope split. -/
def on_ban (env : VEnv) (a : Activity) : Triple :=
  let room_id := a.target.id
  let channel_id := a.object.url
  let user_id := a.actor.id
  let kicked_id := a.object.id
  let is_global_ban := room_id = none ∨ room_id = some ""
  if pyBlank kicked_id then rejected "got blank user id, can not ban"
  else if ¬ env.roomExists channel_id room_id then
    rejected ("no room with id \"" ++ pyStr room_id ++ "\" exists")
  else if ¬ is_global_ban then
    if ¬ env.isOwner room_id user_id then rejected "only owners can ban"
    else accepted
  else if ¬ env.isAdmin user_id then rejected "only admins can do global bans"
  else accepted

/-- Loop body of `on_set_acl`: validate each attachment before anything is
stored. -/
def checkAcls (env : VEnv) : List Attachment → Triple
  | [] => accepted
  | at_ :: rest =>
    if at_.objectType ∉ env.aclKeys then
      rejected ("invalid acl type \"" ++ at_.objectType ++ "\"")
    else if ¬ env.isAclValid at_.objectType at_.content then
      rejected ("invalid acl value \"" ++ at_.content ++ "\" for type \"" ++
        at_.objectType ++ "\"")
    else checkAcls env rest

/-- `RequestValidator.on_set_acl`. -/
def on_set_acl (env : VEnv) (a : Activity) : Triple :=
  if ¬ env.isOwner a.target.id a.actor.id then rejected "user not an owner of room"
  else checkAcls env a.object.attachments

/-- `RequestValidator.on_join`. -/
def on_join (env : VEnv) (a : Activity) : Triple :=
  if ¬ env.validateAcl.1 then (false, some 400, env.validateAcl.2)
  else
    let bd := env.isBanned a.actor.id a.target.id
    if bd.1 then rejected ("user is banned from joining room for: " ++ bd.2 ++ "s")
    else accepted

/-- `RequestValidator.on_leave`: rejects only when the parsed activity has
no target part (`hasattr(activity, 'target')` fails). -/
def on_leave (_env : VEnv) (a : Activity) : Triple :=
  if ¬ a.hasTarget then rejected "room_id is None when trying to leave room"
  else accepted

/-- `RequestValidator.on_list_channels`. -/
def on_list_channels (_env : VEnv) (_a : Activity) : Triple := accepted

/-- `RequestValidator.on_list_rooms`. -/
def on_list_rooms (_env : VEnv) (a : Activity) : Triple :=
  if pyEmpty a.object.url then rejected "need channel ID to list rooms"
  else accepted

/-- `RequestValidator.on_users_in_room`. -/
def on_users_in_room (_env : VEnv) (_a : Activity) : Triple := accepted

/-- `RequestValidator.on_history`. -/
def on_history (env : VEnv) (a : Activity) : Triple :=
  if pyBlank a.target.id then rejected "invalid target id"
  else if ¬ env.validateAcl.1 then (false, some 400, env.validateAcl.2)
  else accepted

/-- `RequestValidator.on_status`.  The status is the activity's verb. -/
def on_status (env : VEnv) (a : Activity) : Triple :=
  if (env.session.lookup "user_name").isNone then rejected "no user name in session"
  else if ¬ env.validateRequest.1 then (false, some 400, env.validateRequest.2)
  else if a.verb ∉ ["online", "offline", "invisible"] then
    rejected ("invalid status " ++ a.verb)
  else accepted

/-- `RequestValidator.on_get_acl`. -/
def on_get_acl (_env : VEnv) (_a : Activity) : Triple := accepted

/-- `RequestValidator.on_kick`.  The id whose roles are consulted is
`user_id = activity.target.display_name` — the user being kicked — not the
acting user. -/
def on_kick (env : VEnv) (a : Activity) : Triple :=
  let room_id := a.target.id
  let channel_id := a.object.url
  let user_id := a.target.displayName
  if pyBlank channel_id then rejected "got blank channel id, can not kick"
  else if pyBlank room_id then rejected "got blank room id, can not kick"
  else if pyBlank user_id then rejected "got blank user id, can not kick"
  else if ¬ env.roomExists channel_id room_id then
    rejected ("no room with id \"" ++ pyStr room_id ++ "\" exists")
  else if env.isOwner room_id user_id then accepted
  else if env.isOwnerChannel channel_id user_id then accepted
  else if env.isModerator room_id user_id then accepted
  else if env.isAdmin user_id then accepted
  else rejected "only owners/admins/moderators can kick"

/-- `RequestValidator.on_create`. -/
def on_create (env : VEnv) (a : Activity) : Triple :=
  let room_name := a.target.displayName
  let channel_id := a.object.url
  if pyBlank room_name then rejected "got blank room name, can not create"
  else if ¬ env.channelExists channel_id then rejected "channel does not exist"
  else if env.roomNameExists channel_id room_name then
    rejected "a room with that name already exists"
  else accepted

/-- Verb dispatch over the `on_<verb>` handlers of `RequestValidator`. -/
def handleVerb (env : VEnv) (verb : String) (a : Activity) : Option Triple :=
  if verb = "message" then some (on_message env a)
  else if verb = "delete" then some (on_delete env a)
  else if verb = "login" then some (on_login env a)
  else if verb = "ban" then some (on_ban env a)
  else if verb = "set_acl" then some (on_set_acl env a)
  else if verb = "join" then some (on_join env a)
  else if verb = "leave" then some (on_leave env a)
  else if verb = "list_channels" then some (on_list_channels env a)
  else if verb = "list_rooms" then some (on_list_rooms env a)
  else if verb = "users_in_room" then some (on_users_in_room env a)
  else if verb = "history" then some (on_history env a)
  else if verb = "status" then some (on_status env a)
  else if verb = "get_acl" then some (on_get_acl env a)
  else if verb = "kick" then some (on_kick env a)
  else if verb = "create" then some (on_create env a)
  else none

end RequestValidator

/-! ## ACL evaluation engine

Modelled from the spec: the engine's source (`dino/validation/acl.py`,
classes `AclPatternValidator`, `AclRangeValidator`, `AclStrInCsvValidator`)
is not under `src/`; only its test file
(`src/test/validation/test_acl_custom_pattern.py`) is.  The evaluator below
follows the spec's grammar and semantics: an expression is a disjunction
(`|`) of clauses, a clause a conjunction (`,`) of terms, parentheses group a
single clause, a term `k=v` compares the session's value for `k` with `v`
(string equality, or inclusion in the integer range `lo?:hi?` for
range-typed keys), and `k=!v` is the negation of `k=v`.  The model is
checked against the expectations of the test file further below. -/

/-- Attribute validator types relevant to evaluation: plain string
comparison or integer range. -/
inductive AclType where
  | str
  | range
deriving DecidableEq, Repr

/-- Modelled from the spec: the `validation.<attribute>.type` configuration
section assigning each session attribute its validator type. -/
structure AclCfg where
  keyType : String → AclType

/-- A session: attribute-name/value pairs. -/
def Session := List (String × String)

/-- Split a character list on a separator character (like Python
`str.split(sep)`). -/
def splitOnChar (sep : Char) : List Char → List (List Char)
  | [] => [[]]
  | c :: cs =>
    let r := splitOnChar sep cs
    if c = sep then [] :: r
    else match r with
      | [] => [[c]]
      | h :: t => (c :: h) :: t

/-- Parse a character list as an unsigned decimal integer. -/
def parseNatChars (cs : List Char) : Option Nat :=
  if cs = [] then none
  else cs.foldl (fun acc c =>
    match acc with
    | none => none
    | some n => if '0' ≤ c ∧ c ≤ '9' then some (n * 10 + (c.toNat - 48)) else none)
    (some 0)

/-- Modelled from the spec: the clauses of an expression are the
`|`-separated pieces. -/
def clausesOf (e : String) : List String :=
  (splitOnChar '|' e.data).map (fun l => ⟨l⟩)

/-- Strip one level of grouping parentheses from a clause. -/
def stripParens (c : String) : String :=
  match c.data with
  | [] => c
  | x :: xs =>
    if x = '(' ∧ xs.getLast? = some ')' then ⟨xs.dropLast⟩ else c

/-- Modelled from the spec: the terms of a clause are the `,`-separated
pieces after removing the grouping parentheses. -/
def termsOf (c : String) : List String :=
  (splitOnChar ',' (stripParens c).data).map (fun l => ⟨l⟩)

/-- Does the integer `n` lie in the range written `lo?:hi?` (either bound
optional, inclusive)? -/
def rangeHolds (raw : String) (n : Nat) : Bool :=
  match splitOnChar ':' raw.data with
  | [lo, hi] =>
    let loOk := if lo = [] then true else match parseNatChars lo with
      | some l => decide (l ≤ n)
      | none => false
    let hiOk := if hi = [] then true else match parseNatChars hi with
      | some h => decide (n ≤ h)
      | none => false
    loOk && hiOk
  | _ => false

/-- Modelled from the spec: does a single term `k=v` (or `k=!v`) hold on the
session?  For a range-typed key the session value must parse as an integer
inside the range; for a string-typed key the values must be equal.  A
malformed term (no `=`, or more than one) holds for no session. -/
def termHolds (cfg : AclCfg) (s : Session) (t : String) : Bool :=
  match splitOnChar '=' t.data with
  | [k, v] =>
    let neg := listStarts v ['!']
    let raw : String := if neg then ⟨v.drop 1⟩ else ⟨v⟩
    let base :=
      match cfg.keyType ⟨k⟩ with
      | AclType.str => s.lookup ⟨k⟩ = some raw
      | AclType.range =>
        match s.lookup ⟨k⟩ with
        | none => false
        | some sv =>
          match parseNatChars sv.data with
          | none => false
          | some n => rangeHolds raw n
    if neg then !base else base
  | _ => false

/-- Modelled from the spec: a clause holds iff all its terms hold. -/
def clauseHolds (cfg : AclCfg) (s : Session) (c : String) : Bool :=
  (termsOf c).all (termHolds cfg s)

/-- Modelled from the spec: evaluation of an ACL expression against a
session — the expression holds iff any clause's terms all hold. -/
def evalAcl (cfg : AclCfg) (s : Session) (e : String) : Bool :=
  (clausesOf e).any (clauseHolds cfg s)

/-- The attribute typing used by the test configuration: `age` is
range-typed, every other attribute is compared as a string. -/
def testAclCfg : AclCfg :=
  ⟨fun k => if k = "age" then AclType.range else AclType.str⟩

/-- The session installed by the test file's `setUp` (age 61, gender f,
membership n, country cn). -/
def testSession : Session :=
  [("age", "61"), ("gender", "f"), ("membership", "n"), ("country", "cn")]

/-! ## Operational CLI `count_users_in_rooms` (`bin/count_users_in_rooms.py`)

The script initialises `the_count = 0`; only when the configured database
type is `rdbms` and the driver starts with `postgres` or `mysql` does it
query `select count(distinct user_id) from rooms_users_association_table`;
it then unconditionally writes `the_count` to the cache key
`users:online:inrooms`.  The memberships table is modelled as a list of
`(user_id, room_id)` rows. -/

/-- Configuration and database contents seen by the job. -/
structure JobConfig where
  dbtype : String
  driver : String
  memberships : List (String × String)
deriving Repr

/-- `select count(distinct user_id) from rooms_users_association_table`. -/
def distinctUserCount (rows : List (String × String)) : Nat :=
  (rows.map Prod.fst).dedup.length

/-- The cache write performed by `bin/count_users_in_rooms.py`: the key and
the integer stored at it. -/
def count_users_in_rooms (cfg : JobConfig) : String × Nat :=
  let the_count :=
    if cfg.dbtype = "rdbms" then
      if pyStartsWith cfg.driver "postgres" then distinctUserCount cfg.memberships
      else if cfg.dbtype = "rdbms" ∧ pyStartsWith cfg.driver "mysql" then
        distinctUserCount cfg.memberships
      else 0
    else 0
  ("users:online:inrooms", the_count)

/-! ## Moderation dispatcher (`dino/endpoint/queue.py`)

The dispatcher is embedded as a trace-producing state-and-exception monad
`M`.  The state `St` holds the two bounded dedup structures
(`recently_delegated_events` list + set, `recently_handled_events` list +
set); every port call (internal/external bus publish, persistence writes,
broadcast emits, message deletion) appends an `Ev` to the trace when it
succeeds.  Python exceptions are modelled by `Exc`; `try/except KeyError`,
`try/except NoSuchUserException` and bare `try/except Exception` become the
`catchKey`, `catchNoSuchUser` and `catchAll` combinators.  Port calls whose
failure the claims exercise carry an outcome knob in `QEnv`; the remaining
collaborators are modelled as total lookups. -/

/-- Python exception classes distinguished by the dispatcher's handlers. -/
inductive Exc where
  | keyError
  | noSuchUser
  | otherError
deriving DecidableEq, Repr

/-- Observable effects on the ports: internal-bus publish, external-bus
publish (with the kind of normalized event), the three scope-specific ban
persistence calls, broadcast emits, socket/db room leaves, message
deletion, and the offline mark. -/
inductive Ev where
  | pubInternal (aid : String)
  | pubExternal (kind : String) (uid : Option String)
  | banGlobal (banned : Option String)
  | banChannel (banned : Option String) (ch : Option String)
  | banRoom (banned : Option String) (room : Option String)
  | emit (event : String) (room : Option String)
  | sioLeaveRoom (sid room : String)
  | dbLeaveRoom (uid : Option String) (room : String)
  | deleteMessage (mid : String)
  | setUserOffline (uid : Option String)
deriving DecidableEq, Repr

/-- Is this event one of the three scope-specific ban persistence calls? -/
def Ev.isPersistBan : Ev → Bool
  | Ev.banGlobal _ => true
  | Ev.banChannel _ _ => true
  | Ev.banRoom _ _ => true
  | _ => false

/-- Is this event a broadcast emission (`out_of_scope_emit`)? -/
def Ev.isEmit : Ev → Bool
  | Ev.emit _ _ => true
  | _ => false

/-- One bounded FIFO dedup structure: the eviction-order list and the
companion membership set. -/
structure DQ where
  lst : List String
  mem : Finset String
deriving DecidableEq

/-- Dispatcher state: `recently_delegated_events(_set)` and
`recently_handled_events(_set)`. -/
structure St where
  delegated : DQ
  handled : DQ
deriving DecidableEq

/-- The state of a freshly constructed `QueueHandler`. -/
def St.init : St := ⟨⟨[], ∅⟩, ⟨[], ∅⟩⟩

/-- The dispatcher monad: state, Python exceptions, and the trace of
effects emitted by this computation. -/
def M (α : Type) := St → Except Exc α × St × List Ev

namespace M

def pure (a : α) : M α := fun s => (Except.ok a, s, [])

def bind (m : M α) (f : α → M β) : M β := fun s =>
  match m s with
  | (Except.ok a, s1, t1) =>
    match f a s1 with
    | (r, s2, t2) => (r, s2, t1 ++ t2)
  | (Except.error e, s1, t1) => (Except.error e, s1, t1)

instance : Monad M where
  pure := M.pure
  bind := M.bind

/-- Record a successful port call. -/
def tell (e : Ev) : M Unit := fun s => (Except.ok (), s, [e])

/-- Raise a Python exception. -/
def raise (e : Exc) : M α := fun s => (Except.error e, s, [])

def getSt : M St := fun s => (Except.ok s, s, [])

def setSt (s1 : St) : M Unit := fun _ => (Except.ok (), s1, [])

/-- A port call with an outcome knob: raise the configured exception or
record the event. -/
def call (knob : Option Exc) (e : Ev) : M Unit :=
  match knob with
  | some exc => raise exc
  | none => tell e

/-- `try: m except Exception: log` — absorb every exception. -/
def catchAll (m : M Unit) : M Unit := fun s =>
  match m s with
  | (Except.ok _, s1, t1) => (Except.ok (), s1, t1)
  | (Except.error _, s1, t1) => (Except.ok (), s1, t1)

/-- `try: m except KeyError: log` — absorb only `KeyError`. -/
def catchKey (m : M Unit) : M Unit := fun s =>
  match m s with
  | (Except.error Exc.keyError, s1, t1) => (Except.ok (), s1, t1)
  | r => r

/-- `try: m except SomeError: return` followed by `k`: run `k` only when
`m` succeeded, absorb `m`'s exception otherwise. -/
def tryThen (m k : M Unit) : M Unit := fun s =>
  match m s with
  | (Except.ok _, s1, t1) =>
    match k s1 with
    | (r, s2, t2) => (r, s2, t1 ++ t2)
  | (Except.error _, s1, t1) => (Except.ok (), s1, t1)

/-- `for x in xs: body x` inside the monad. -/
def forEach : List α → (α → M Unit) → M Unit
  | [], _ => pure ()
  | x :: xs, body => M.bind (body x) (fun _ => forEach xs body)

end M

/-- The environment of a `QueueHandler`: the node name, the socket.io room
registry, the `utils`/`db`/`storage` collaborators, and outcome knobs for
the port calls whose failure behaviour matters (`env.publish` internal and
external, `db.ban_user_*`, `utils.ban_duration_to_timestamp`,
`out_of_scope_emit`). -/
structure QEnv where
  node : String
  sioRooms : Option String → Option (List (String × List String))
  sidFor : Option String → Option String
  userName : Option String → Option String
  roomsForUser : Option String → List (String × String)
  roomsForChannel : Option String → List String
  undeleted : Option String → String → List String
  banDurationExc : Option String → Option Exc
  pubInternalExc : Option Exc
  pubExternalExc : Option Exc
  dbBanExc : Option Exc
  emitExc : String → Option String → Option Exc

/-- `environ.env.publish(data)` on the internal bus. -/
def publishInternal (env : QEnv) (aid : String) : M Unit :=
  M.call env.pubInternalExc (Ev.pubInternal aid)

/-- `env.publish(..., external=True)` on the external bus. -/
def publishExternal (env : QEnv) (kind : String) (uid : Option String) : M Unit :=
  M.call env.pubExternalExc (Ev.pubExternal kind uid)

/-- `env.out_of_scope_emit(event, ..., room=room)`. -/
def emitEv (env : QEnv) (event : String) (room : Option String) : M Unit :=
  M.call (env.emitExc event room) (Ev.emit event room)

namespace QueueHandler

/-- Shared body of `update_recently_delegated_events` and
`update_recently_handled_events`: append the id to the list, add it to the
set, and if the list has outgrown 100 entries remove the oldest id from the
set (Python `set.remove` raises `KeyError` when it is absent — at that
point the append and the set-add have already happened) and drop it from
the list. -/
def updateBounded (q : DQ) (aid : String) : DQ × Option Exc :=
  let lst := q.lst ++ [aid]
  let mem := insert aid q.mem
  if lst.length > 100 then
    match lst with
    | [] => (⟨[], mem⟩, none)
    | h :: rest =>
      if h ∈ mem then (⟨rest, mem.erase h⟩, none)
      else (⟨h :: rest, mem⟩, some Exc.keyError)
  else (⟨lst, mem⟩, none)

/-- `QueueHandler.update_recently_delegated_events`. -/
def update_recently_delegated_events (aid : String) : M Unit := fun s =>
  match updateBounded s.delegated aid with
  | (q, none) => (Except.ok (), { s with delegated := q }, [])
  | (q, some e) => (Except.error e, { s with delegated := q }, [])

/-- `QueueHandler.update_recently_handled_events`. -/
def update_recently_handled_events (aid : String) : M Unit := fun s =>
  match updateBounded s.handled aid with
  | (q, none) => (Except.ok (), { s with handled := q }, [])
  | (q, some e) => (Except.error e, { s with handled := q }, [])

/-- `QueueHandler.user_is_on_this_node`: false on any node not named
`app`; otherwise look the user's sid up in the socket.io room registry for
the target's namespace (`KeyError` and any other lookup failure are caught
and yield false). -/
def user_is_on_this_node (env : QEnv) (a : Activity) : Bool :=
  if env.node ≠ "app" then false
  else
    let namespace_ := some (pyOr a.target.url "/ws")
    let user_sid := env.sidFor a.object.id
    match env.sioRooms namespace_ with
    | none => false
    | some rooms =>
      match a.target.id with
      | none =>
        match user_sid with
        | none => false
        | some sid => rooms.any (fun p => p.1 = sid)
      | some rid =>
        let users := ((rooms.lookup rid).getD [])
        match user_sid with
        | none => false
        | some sid => sid ∈ users

/-- `QueueHandler.send_ban_event_to_external_queue`: build the normalized
ban activity and publish it externally. -/
def send_ban_event_to_external_queue (env : QEnv) (a : Activity) : M Unit :=
  publishExternal env "ban" a.object.id

/-- `QueueHandler.send_kick_event_to_external_queue`. -/
def send_kick_event_to_external_queue (env : QEnv) (a : Activity) : M Unit :=
  publishExternal env "kick" a.object.id

/-- `QueueHandler.create_ban_even_if_not_on_this_node`: translate the
duration, publish the normalized ban event externally, then persist the
ban with the scope-specific call; only `KeyError` is caught. -/
def create_ban_even_if_not_on_this_node (env : QEnv) (a : Activity) : M Unit :=
  let banned_id := a.object.id
  let tt := a.target.objectType
  let target_type := if tt = some "room" then "room"
    else if tt = some "channel" then "channel" else "global"
  let target_id : Option String :=
    if tt = some "room" ∨ tt = some "channel" then a.target.id else some ""
  M.catchKey (do
    match env.banDurationExc a.object.summary with
    | some e => M.raise e
    | none => Pure.pure ()
    send_ban_event_to_external_queue env a
    match env.dbBanExc with
    | some e => M.raise e
    | none =>
      if target_type = "global" then M.tell (Ev.banGlobal banned_id)
      else if target_type = "channel" then M.tell (Ev.banChannel banned_id target_id)
      else M.tell (Ev.banRoom banned_id target_id))

/-- `QueueHandler.delete_messages` / `try_to_delete_messages`: failures are
absorbed per message. -/
def delete_messages (msgs : List String) : M Unit :=
  if msgs.length = 0 then Pure.pure ()
  else M.forEach msgs (fun mid => M.catchAll (M.tell (Ev.deleteMessage mid)))

/-- `QueueHandler.delete_for_user_in_room`: fetch the user's undeleted
message ids for the room and delete them. -/
def delete_for_user_in_room (env : QEnv) (user_id : Option String) (room_id : String) : M Unit :=
  delete_messages (env.undeleted user_id room_id)

/-- `QueueHandler.kick`: broadcast `gn_user_kicked` to the room, publish
the normalized kick event, leave the socket.io room and the db membership
when the sid is present in the room on this node, then purge the user's
undeleted messages.  A `None` room raises (`RuntimeError`); a failing
registry lookup is absorbed and aborts the kick. -/
def kick (env : QEnv) (a : Activity) (room_id : Option String) (user_id : Option String)
    (user_sid : String) (namespace_ : Option String) : M Unit := do
  match room_id with
  | none => M.raise Exc.otherError
  | some rid =>
    match env.sioRooms namespace_ with
    | none => Pure.pure ()
    | some rooms => do
      let users := (rooms.lookup rid).getD []
      emitEv env "gn_user_kicked" (some rid)
      send_kick_event_to_external_queue env a
      if user_sid ∈ users then do
        M.catchAll (M.tell (Ev.sioLeaveRoom user_sid rid))
        M.catchAll (M.tell (Ev.dbLeaveRoom user_id rid))
      else Pure.pure ()
      delete_for_user_in_room env user_id rid

/-- `QueueHandler.ban_room`: broadcast `gn_user_banned` to the room (and to
the banner unless acting as admin `'0'`), kick, and purge; a kick failure
is absorbed and skips the final purge. -/
def ban_room (env : QEnv) (a : Activity) (room_id : String) (user_id : Option String)
    (user_sid : String) (namespace_ : Option String) : M Unit := do
  emitEv env "gn_user_banned" (some room_id)
  if a.actor.id ≠ some "0" then emitEv env "gn_user_banned" a.actor.id
  else Pure.pure ()
  M.tryThen (kick env a (some room_id) user_id user_sid namespace_)
    (delete_for_user_in_room env user_id room_id)

/-- `QueueHandler.ban_channel`: per-room broadcast and kick over the
channel's rooms inside one try block; only when all succeed are the
per-room purges run. -/
def ban_channel (env : QEnv) (a : Activity) (rooms_in_channel : List String)
    (user_id : Option String) (user_sid : String) (namespace_ : Option String) : M Unit :=
  M.tryThen (do
    if a.actor.id ≠ some "0" then emitEv env "gn_user_banned" a.actor.id
    else Pure.pure ()
    M.forEach rooms_in_channel (fun rid => do
      emitEv env "gn_user_banned" (some rid)
      kick env a (some rid) user_id user_sid namespace_))
    (M.forEach rooms_in_channel (fun rid => delete_for_user_in_room env user_id rid))

/-- `QueueHandler.ban_globally`: broadcast and kick for every room the user
is in; a failure absorbs the rest. -/
def ban_globally (env : QEnv) (a : Activity) (rooms : List (String × String))
    (user_id : Option String) (user_sid : String) (namespace_ : Option String) : M Unit :=
  M.catchAll (M.forEach rooms (fun r => do
    emitEv env "gn_user_banned" (some r.1)
    kick env a (some r.1) user_id user_sid namespace_))

/-- `QueueHandler.handle_ban`: resolve names and the victim's sid, then run
the scope-specific ban path and finally emit `gn_banned` to the victim's
own sid; `KeyError` in that block is absorbed.  An unknown banner returns
quietly; an unknown banned user raises `NoSuchUserException`. -/
def handle_ban (env : QEnv) (a : Activity) : M Unit :=
  let banner_id := a.actor.id
  let banner_name := if banner_id = some "0" then some "admin" else env.userName banner_id
  match banner_name with
  | none => Pure.pure ()
  | some _ =>
    match env.userName a.object.id with
    | none => M.raise Exc.noSuchUser
    | some _ =>
      let banned_sid := env.sidFor a.object.id
      let namespace_ := some (pyOr a.target.url "/ws")
      let tt := a.target.objectType
      let target_id : Option String :=
        if tt = some "room" ∨ tt = some "channel" then a.target.id else some ""
      match banned_sid with
      | none => Pure.pure ()
      | some sid =>
        if sid = "" then Pure.pure ()
        else M.catchKey (do
          if target_id = none ∨ target_id = some "" then do
            ban_globally env a (env.roomsForUser a.object.id) a.object.id sid namespace_
            M.tell (Ev.setUserOffline a.object.id)
            publishExternal env "disconnect" a.object.id
          else if tt = some "channel" then
            ban_channel env a (env.roomsForChannel target_id) a.object.id sid namespace_
          else
            ban_room env a (target_id.getD "") a.object.id sid namespace_
          emitEv env "gn_banned" (some sid))

/-- `QueueHandler.handle_kick`: resolve the kicker (quietly giving up when
unknown), the kicked user (raising when unknown) and the kicked sid; then
kick from every room of the user (global kick) or from the target room;
`KeyError` in the kicking block is absorbed. -/
def handle_kick (env : QEnv) (a : Activity) : M Unit :=
  let kicker_id := a.actor.id
  let kicker_name := if kicker_id = some "0" then some "admin"
    else if pyTruthy a.actor.displayName then a.actor.displayName
    else env.userName kicker_id
  match kicker_name with
  | none => Pure.pure ()
  | some _ =>
    let kicked_name := if pyTruthy a.object.displayName then a.object.displayName
      else env.userName a.object.id
    match kicked_name with
    | none => M.raise Exc.noSuchUser
    | some _ =>
      let kicked_sid := env.sidFor a.object.id
      let room_id := a.target.id
      let namespace_ := a.target.url
      match kicked_sid with
      | none => Pure.pure ()
      | some sid =>
        if sid = "" then Pure.pure ()
        else M.catchKey (
          if room_id = none ∨ room_id = some "" then
            M.forEach (env.roomsForUser a.object.id)
              (fun r => kick env a (some r.1) a.object.id sid namespace_)
          else kick env a room_id a.object.id sid namespace_)

/-- `QueueHandler.handle_remove`: broadcast `gn_room_removed` to the
target's namespace. -/
def handle_remove (env : QEnv) (_a : Activity) : M Unit :=
  emitEv env "gn_room_removed" none

/-- `QueueHandler.handle_local_node_events`.  For a ban: when the victim is
not on this node, record the id as delegated and republish on the internal
bus, then create the ban anyway and stop; when the victim is here, create
the ban and run `handle_ban` with all its errors absorbed.  Kick and remove
run their handlers with all errors absorbed. -/
def handle_local_node_events (env : QEnv) (a : Activity) : M Unit :=
  if a.verb = "ban" then
    if user_is_on_this_node env a then do
      create_ban_even_if_not_on_this_node env a
      M.catchAll (handle_ban env a)
    else do
      update_recently_delegated_events a.id
      publishInternal env a.id
      create_ban_even_if_not_on_this_node env a
  else if a.verb = "kick" then M.catchAll (handle_kick env a)
  else if a.verb = "remove" then M.catchAll (handle_remove env a)
  else Pure.pure ()

/-- `QueueHandler._handle_server_activity`: drop when the id was delegated
from this node or already handled here; otherwise record it as handled and
either run local-node handling (ban/kick/remove) or republish externally. -/
def handle_server_activity_inner (env : QEnv) (a : Activity) : M Unit := do
  let s ← M.getSt
  if a.id ∈ s.delegated.mem then Pure.pure ()
  else if a.id ∈ s.handled.mem then Pure.pure ()
  else do
    update_recently_handled_events a.id
    if a.verb = "ban" ∨ a.verb = "kick" ∨ a.verb = "remove" then
      handle_local_node_events env a
    else publishExternal env "other" a.id

/-- `QueueHandler.handle_server_activity`: the inner handler with every
exception caught and logged. -/
def handle_server_activity (env : QEnv) (a : Activity) : M Unit :=
  M.catchAll (handle_server_activity_inner env a)

/-- The state after one delivery. -/
def stepSt (env : QEnv) (a : Activity) (s : St) : St :=
  (handle_server_activity env a s).2.1

/-- The trace of one delivery. -/
def traceOf (env : QEnv) (a : Activity) (s : St) : List Ev :=
  (handle_server_activity env a s).2.2

/-- Deliver the same envelope `n` times in a row. -/
def deliverN (env : QEnv) (a : Activity) : Nat → M Unit
  | 0 => Pure.pure ()
  | n + 1 => M.bind (handle_server_activity env a) (fun _ => deliverN env a n)

/-- States reachable by a freshly constructed dispatcher through any
sequence of deliveries. -/
inductive Reach : St → Prop where
  | init : Reach St.init
  | step (env : QEnv) (a : Activity) {s : St} : Reach s → Reach (stepSt env a s)

end QueueHandler

/-! ## Dispatcher lemmas -/

namespace QueueHandler

/-- Unfold do-notation bind to `M.bind`. -/
theorem mBind_def {α β : Type} (m : M α) (f : α → M β) :
    (m >>= f) = M.bind m f := rfl

/-- Unfold do-notation pure to `M.pure`. -/
theorem mPure_def {α : Type} (a : α) : (Pure.pure a : M α) = M.pure a := rfl

/-- A dispatcher computation that leaves the dedup state untouched. -/
def StPres {α : Type} (m : M α) : Prop := ∀ s : St, (m s).2.1 = s

theorem stPres_pure {α : Type} (a : α) : StPres (M.pure a) := fun _ => rfl

theorem stPres_tell (e : Ev) : StPres (M.tell e) := fun _ => rfl

theorem stPres_raise {α : Type} (e : Exc) : StPres (M.raise e : M α) := fun _ => rfl

theorem stPres_call (knob : Option Exc) (e : Ev) : StPres (M.call knob e) := by
  cases knob <;> intro s <;> rfl

theorem stPres_bind {α β : Type} {m : M α} {f : α → M β}
    (hm : StPres m) (hf : ∀ x, StPres (f x)) : StPres (M.bind m f) := by
  intro s
  have h1 := hm s
  unfold M.bind
  rcases h : m s with ⟨r, s1, t1⟩
  rw [h] at h1
  dsimp only at h1
  cases r with
  | ok a =>
    have h2 := hf a s1
    rcases h3 : f a s1 with ⟨r2, s2, t2⟩
    rw [h3] at h2
    dsimp only at h2
    dsimp only
    rw [h3]
    dsimp only
    rw [h2, h1]
  | error e =>
    dsimp only
    exact h1

theorem stPres_catchAll {m : M Unit} (hm : StPres m) : StPres (M.catchAll m) := by
  intro s
  unfold M.catchAll
  rcases h : m s with ⟨r, s1, t1⟩
  have hs1 : s1 = s := by have := hm s; rw [h] at this; exact this
  cases r <;> simp [h, hs1]

theorem stPres_catchKey {m : M Unit} (hm : StPres m) : StPres (M.catchKey m) := by
  intro s
  unfold M.catchKey
  rcases h : m s with ⟨r, s1, t1⟩
  have hs1 : s1 = s := by have := hm s; rw [h] at this; exact this
  cases r with
  | ok a => simp [h, hs1]
  | error e => cases e <;> simp [h, hs1]

theorem stPres_tryThen {m k : M Unit} (hm : StPres m) (hk : StPres k) :
    StPres (M.tryThen m k) := by
  intro s
  have h1 := hm s
  unfold M.tryThen
  rcases h : m s with ⟨r, s1, t1⟩
  rw [h] at h1
  dsimp only at h1
  cases r with
  | ok a =>
    have h2 := hk s1
    rcases h3 : k s1 with ⟨r2, s2, t2⟩
    rw [h3] at h2
    dsimp only at h2
    dsimp only
    rw [h3]
    dsimp only
    rw [h2, h1]
  | error e =>
    dsimp only
    exact h1

theorem stPres_forEach {α : Type} (xs : List α) (body : α → M Unit)
    (hb : ∀ x, StPres (body x)) : StPres (M.forEach xs body) := by
  induction xs with
  | nil => exact stPres_pure ()
  | cons x xs ih => exact stPres_bind (hb x) (fun _ => ih)

theorem stPres_ite {α : Type} (c : Prop) [Decidable c] {m k : M α}
    (hm : StPres m) (hk : StPres k) : StPres (if c then m else k) := by
  by_cases h : c <;> simp [h, hm, hk]

theorem stPres_publishInternal (env : QEnv) (aid : String) :
    StPres (publishInternal env aid) := stPres_call _ _

theorem stPres_publishExternal (env : QEnv) (kind : String) (uid : Option String) :
    StPres (publishExternal env kind uid) := stPres_call _ _

theorem stPres_emitEv (env : QEnv) (event : String) (room : Option String) :
    StPres (emitEv env event room) := stPres_call _ _

theorem stPres_create_ban (env : QEnv) (a : Activity) :
    StPres (create_ban_even_if_not_on_this_node env a) := by
  unfold create_ban_even_if_not_on_this_node send_ban_event_to_external_queue
  apply stPres_catchKey
  simp only [mBind_def, mPure_def]
  rcases env.banDurationExc a.object.summary with _ | e
  · apply stPres_bind (stPres_pure ()) (fun _ => ?_)
    apply stPres_bind (stPres_publishExternal env "ban" a.object.id) (fun _ => ?_)
    rcases env.dbBanExc with _ | e2
    · exact stPres_ite _ (stPres_tell _) (stPres_ite _ (stPres_tell _) (stPres_tell _))
    · exact stPres_raise e2
  · apply stPres_bind (stPres_raise e) (fun _ => ?_)
    apply stPres_bind (stPres_publishExternal env "ban" a.object.id) (fun _ => ?_)
    rcases env.dbBanExc with _ | e2
    · exact stPres_ite _ (stPres_tell _) (stPres_ite _ (stPres_tell _) (stPres_tell _))
    · exact stPres_raise e2

theorem stPres_delete_messages (msgs : List String) : StPres (delete_messages msgs) := by
  unfold delete_messages
  simp only [mPure_def]
  apply stPres_ite
  · exact stPres_pure ()
  · exact stPres_forEach _ _ (fun mid => stPres_catchAll (stPres_tell _))

theorem stPres_delete_for_user_in_room (env : QEnv) (uid : Option String) (rid : String) :
    StPres (delete_for_user_in_room env uid rid) := stPres_delete_messages _

theorem stPres_kick (env : QEnv) (a : Activity) (room_id : Option String)
    (user_id : Option String) (user_sid : String) (namespace_ : Option String) :
    StPres (kick env a room_id user_id user_sid namespace_) := by
  unfold kick send_kick_event_to_external_queue
  rcases room_id with _ | rid
  · exact stPres_raise _
  · rcases env.sioRooms namespace_ with _ | rooms
    · exact stPres_pure ()
    · simp only [mBind_def, mPure_def]
      apply stPres_bind (stPres_emitEv env _ _) (fun _ => ?_)
      apply stPres_bind (stPres_publishExternal env _ _) (fun _ => ?_)
      apply stPres_ite
      · exact stPres_bind (stPres_catchAll (stPres_tell _))
          (fun _ => stPres_bind (stPres_catchAll (stPres_tell _))
            (fun _ => stPres_delete_for_user_in_room env user_id rid))
      · exact stPres_bind (stPres_pure ())
          (fun _ => stPres_delete_for_user_in_room env user_id rid)

theorem stPres_ban_room (env : QEnv) (a : Activity) (room_id : String)
    (user_id : Option String) (user_sid : String) (namespace_ : Option String) :
    StPres (ban_room env a room_id user_id user_sid namespace_) := by
  unfold ban_room
  simp only [mBind_def, mPure_def]
  apply stPres_bind (stPres_emitEv env _ _) (fun _ => ?_)
  apply stPres_ite
  · exact stPres_bind (stPres_emitEv env _ _) (fun _ =>
      stPres_tryThen (stPres_kick env a _ _ _ _) (stPres_delete_for_user_in_room env _ _))
  · exact stPres_bind (stPres_pure ()) (fun _ =>
      stPres_tryThen (stPres_kick env a _ _ _ _) (stPres_delete_for_user_in_room env _ _))

theorem stPres_ban_channel (env : QEnv) (a : Activity) (rooms_in_channel : List String)
    (user_id : Option String) (user_sid : String) (namespace_ : Option String) :
    StPres (ban_channel env a rooms_in_channel user_id user_sid namespace_) := by
  unfold ban_channel
  simp only [mBind_def, mPure_def]
  apply stPres_tryThen
  · apply stPres_ite
    · exact stPres_bind (stPres_emitEv env _ _) (fun _ =>
        stPres_forEach _ _ (fun rid =>
          stPres_bind (stPres_emitEv env _ _) (fun _ => stPres_kick env a _ _ _ _)))
    · exact stPres_bind (stPres_pure ()) (fun _ =>
        stPres_forEach _ _ (fun rid =>
          stPres_bind (stPres_emitEv env _ _) (fun _ => stPres_kick env a _ _ _ _)))
  · exact stPres_forEach _ _ (fun rid => stPres_delete_for_user_in_room env _ _)

theorem stPres_ban_globally (env : QEnv) (a : Activity) (rooms : List (String × String))
    (user_id : Option String) (user_sid : String) (namespace_ : Option String) :
    StPres (ban_globally env a rooms user_id user_sid namespace_) := by
  unfold ban_globally
  simp only [mBind_def, mPure_def]
  apply stPres_catchAll
  apply stPres_forEach _ _ (fun r => ?_)
  exact stPres_bind (stPres_emitEv env _ _) (fun _ => stPres_kick env a _ _ _ _)

theorem stPres_handle_ban (env : QEnv) (a : Activity) : StPres (handle_ban env a) := by
  unfold handle_ban
  dsimp only
  simp only [mBind_def, mPure_def]
  split
  · exact stPres_pure ()
  · split
    · exact stPres_raise _
    · split
      · exact stPres_pure ()
      · apply stPres_ite _ (stPres_pure ())
        apply stPres_catchKey
        apply stPres_ite
        · exact stPres_bind (stPres_ban_globally env a _ _ _ _) (fun _ =>
            stPres_bind (stPres_tell _) (fun _ =>
              stPres_bind (stPres_publishExternal env _ _) (fun _ => stPres_emitEv env _ _)))
        · apply stPres_ite
          · exact stPres_bind (stPres_ban_channel env a _ _ _ _)
              (fun _ => stPres_emitEv env _ _)
          · exact stPres_bind (stPres_ban_room env a _ _ _ _)
              (fun _ => stPres_emitEv env _ _)

theorem stPres_handle_kick (env : QEnv) (a : Activity) : StPres (handle_kick env a) := by
  unfold handle_kick
  dsimp only
  simp only [mBind_def, mPure_def]
  split
  · exact stPres_pure ()
  · split
    · exact stPres_raise _
    · split
      · exact stPres_pure ()
      · apply stPres_ite _ (stPres_pure ())
        apply stPres_catchKey
        apply stPres_ite
        · exact stPres_forEach _ _ (fun r => stPres_kick env a _ _ _ _)
        · exact stPres_kick env a _ _ _ _

theorem stPres_handle_remove (env : QEnv) (a : Activity) : StPres (handle_remove env a) :=
  stPres_emitEv env _ _

end QueueHandler

/-- Well-formedness of one dedup structure: the eviction list has no
duplicates, the companion set holds exactly the listed ids, and the list is
within the 100-entry cap.  This holds in every reachable dispatcher state. -/
def DQ.inv (q : DQ) : Prop :=
  q.lst.Nodup ∧ q.mem = q.lst.toFinset ∧ q.lst.length ≤ 100

theorem DQ.inv_init : (DQ.mk [] ∅).inv := by
  refine ⟨List.nodup_nil, ?_, by simp⟩
  simp

namespace QueueHandler

/-- Inserting a fresh id into a well-formed dedup structure succeeds,
keeps it well-formed, and leaves the new id a member. -/
theorem updateBounded_inv (q : DQ) (aid : String) (hq : q.inv) (ha : aid ∉ q.mem) :
    (updateBounded q aid).2 = none ∧ ((updateBounded q aid).1).inv ∧
      aid ∈ (updateBounded q aid).1.mem := by
  obtain ⟨lst, mem⟩ := q
  obtain ⟨hnd, hmem, hlen⟩ := hq
  dsimp only at hnd hmem hlen ha
  have ha' : aid ∉ lst := fun hmem2 => ha (hmem ▸ List.mem_toFinset.mpr hmem2)
  unfold updateBounded
  dsimp only
  by_cases hbig : (lst ++ [aid]).length > 100
  · cases lst with
    | nil => simp at hbig
    | cons x t =>
      have hx_set : x ∈ mem := hmem ▸ List.mem_toFinset.mpr (List.mem_cons_self x t)
      have hx_ins : x ∈ insert aid mem := Finset.mem_insert_of_mem hx_set
      have hx_ne : x ≠ aid := fun h => ha' (h ▸ List.mem_cons_self x t)
      have hx_nt : x ∉ t := (List.nodup_cons.mp hnd).1
      have hnd_t : t.Nodup := (List.nodup_cons.mp hnd).2
      have haid_nt : aid ∉ t := fun h => ha' (List.mem_cons_of_mem x h)
      simp only [List.cons_append] at hbig ⊢
      rw [if_pos hbig]
      rw [if_pos hx_ins]
      refine ⟨rfl, ⟨?_, ?_, ?_⟩, ?_⟩
      · simp [List.nodup_append, hnd_t, haid_nt]
      · rw [hmem]
        have h1 : (insert aid (x :: t).toFinset).erase x
            = insert aid ((x :: t).toFinset.erase x) :=
          Finset.erase_insert_of_ne (fun h => hx_ne h.symm)
        have h2 : (x :: t).toFinset.erase x = t.toFinset.erase x := by
          rw [List.toFinset_cons, Finset.erase_insert_eq_erase]
        have h3 : t.toFinset.erase x = t.toFinset :=
          Finset.erase_eq_of_not_mem (fun h => hx_nt (List.mem_toFinset.mp h))
        rw [h1, h2, h3]
        ext y
        simp [or_comm]
      · have hl : (x :: t).length ≤ 100 := hlen
        simp only [List.length_cons] at hl
        simpa using hl
      · exact Finset.mem_erase.mpr ⟨fun h => hx_ne h.symm, Finset.mem_insert_self aid _⟩
  · rw [if_neg hbig]
    refine ⟨rfl, ⟨?_, ?_, ?_⟩, Finset.mem_insert_self aid _⟩
    · simp [List.nodup_append, hnd, ha']
    · rw [hmem]
      ext y
      simp [or_comm]
    · simp only [not_lt] at hbig
      simpa using hbig

/-- When the list already holds 100 ids, inserting one more evicts exactly
the oldest id: it is dropped from the front of the list and erased from the
companion set. -/
theorem updateBounded_evict (x : String) (l : List String) (mem : Finset String)
    (aid : String) (hlen : (x :: l).length = 100) (hx : x ∈ insert aid mem) :
    updateBounded ⟨x :: l, mem⟩ aid = (⟨l ++ [aid], (insert aid mem).erase x⟩, none) := by
  unfold updateBounded
  have hbig : (x :: (l ++ [aid])).length > 100 := by
    simp only [List.length_cons, List.length_append]
    simp only [List.length_cons] at hlen
    simp [hlen]
  simp only [List.cons_append]
  rw [if_pos hbig]
  rw [if_pos hx]

/-- `catchAll` does not change the state its body produced. -/
theorem catchAll_state (m : M Unit) (s : St) : (M.catchAll m s).2.1 = (m s).2.1 := by
  unfold M.catchAll
  rcases h : m s with ⟨r, s1, t1⟩
  cases r <;> simp

/-- A bind whose continuation preserves the state ends in the state of its
first action. -/
theorem bind_state_of_pres {α β : Type} (m : M α) (f : α → M β) (s : St)
    (hf : ∀ x, StPres (f x)) : (M.bind m f s).2.1 = (m s).2.1 := by
  unfold M.bind
  rcases h : m s with ⟨r, s1, t1⟩
  cases r with
  | ok a =>
    have h2 := hf a s1
    rcases h3 : f a s1 with ⟨r2, s2, t2⟩
    rw [h3] at h2
    dsimp only at h2
    simp [h3, h2]
  | error e => simp

/-- Running `update_recently_delegated_events` sets the delegated queue to
the `updateBounded` result, succeeding or raising as it does. -/
theorem update_delegated_state (aid : String) (s : St) :
    (update_recently_delegated_events aid s).2.1
      = { s with delegated := (updateBounded s.delegated aid).1 } := by
  unfold update_recently_delegated_events
  rcases h : updateBounded s.delegated aid with ⟨q, e⟩
  cases e <;> simp

/-- Running `update_recently_handled_events` sets the handled queue to the
`updateBounded` result. -/
theorem update_handled_state (aid : String) (s : St) :
    (update_recently_handled_events aid s).2.1
      = { s with handled := (updateBounded s.handled aid).1 } := by
  unfold update_recently_handled_events
  rcases h : updateBounded s.handled aid with ⟨q, e⟩
  cases e <;> simp

/-- The only state change `handle_local_node_events` makes is recording the
id as delegated, and it makes it exactly when the envelope is a ban whose
victim is not on this node. -/
theorem handle_local_state (env : QEnv) (a : Activity) (s : St) :
    (handle_local_node_events env a s).2.1
      = if a.verb = "ban" ∧ user_is_on_this_node env a = false
        then { s with delegated := (updateBounded s.delegated a.id).1 } else s := by
  unfold handle_local_node_events
  simp only [mBind_def, mPure_def]
  by_cases hb : a.verb = "ban"
  · rw [if_pos hb]
    by_cases hon : user_is_on_this_node env a = true
    · rw [if_pos hon]
      rw [if_neg (by simp [hon] : ¬ (a.verb = "ban" ∧ user_is_on_this_node env a = false))]
      exact stPres_bind (stPres_create_ban env a)
        (fun _ => stPres_catchAll (stPres_handle_ban env a)) s
    · rw [if_neg hon]
      have hon' : user_is_on_this_node env a = false := by
        simpa using hon
      rw [if_pos ⟨hb, hon'⟩]
      have hcont : ∀ x : Unit, StPres (M.bind (publishInternal env a.id)
          (fun _ => create_ban_even_if_not_on_this_node env a)) :=
        fun _ => stPres_bind (stPres_publishInternal env a.id)
          (fun _ => stPres_create_ban env a)
      rw [bind_state_of_pres _ _ s (fun x => hcont x)]
      exact update_delegated_state a.id s
  · rw [if_neg hb]
    rw [if_neg (by simp [hb] : ¬ (a.verb = "ban" ∧ user_is_on_this_node env a = false))]
    split
    · exact stPres_catchAll (stPres_handle_kick env a) s
    · split
      · exact stPres_catchAll (stPres_handle_remove env a) s
      · exact stPres_pure () s

/-- Final state of a bind, by cases on the first action's outcome. -/
theorem bind_state {α β : Type} (m : M α) (f : α → M β) (s : St) :
    (M.bind m f s).2.1 = match (m s).1 with
      | Except.ok a => (f a (m s).2.1).2.1
      | Except.error _ => (m s).2.1 := by
  unfold M.bind
  rcases h : m s with ⟨r, s1, t1⟩
  cases r with
  | ok a =>
    rcases h3 : f a s1 with ⟨r2, s2, t2⟩
    simp [h3]
  | error e => simp

/-- Full run of `update_recently_handled_events`. -/
theorem update_handled_run (aid : String) (s : St) :
    update_recently_handled_events aid s
      = ((match (updateBounded s.handled aid).2 with
          | none => Except.ok ()
          | some e => Except.error e),
         { s with handled := (updateBounded s.handled aid).1 }, []) := by
  unfold update_recently_handled_events
  rcases h : updateBounded s.handled aid with ⟨q, e⟩
  cases e <;> simp [h]

/-- Full run of `update_recently_delegated_events`. -/
theorem update_delegated_run (aid : String) (s : St) :
    update_recently_delegated_events aid s
      = ((match (updateBounded s.delegated aid).2 with
          | none => Except.ok ()
          | some e => Except.error e),
         { s with delegated := (updateBounded s.delegated aid).1 }, []) := by
  unfold update_recently_delegated_events
  rcases h : updateBounded s.delegated aid with ⟨q, e⟩
  cases e <;> simp [h]

/-- The state transition of one delivery, in closed form: drop when the id
is in either dedup set; otherwise record it as handled, and additionally as
delegated when the envelope is a ban whose victim is not on this node. -/
def stepStSpec (env : QEnv) (a : Activity) (s : St) : St :=
  if a.id ∈ s.delegated.mem ∨ a.id ∈ s.handled.mem then s
  else
    let u := updateBounded s.handled a.id
    let s1 : St := { s with handled := u.1 }
    if u.2 = none ∧ a.verb = "ban" ∧ user_is_on_this_node env a = false
    then { s1 with delegated := (updateBounded s1.delegated a.id).1 }
    else s1

theorem stepSt_eq (env : QEnv) (a : Activity) (s : St) :
    stepSt env a s = stepStSpec env a s := by
  unfold stepSt stepStSpec handle_server_activity
  rw [catchAll_state]
  unfold handle_server_activity_inner
  simp only [mBind_def, mPure_def]
  rw [bind_state]
  dsimp only [M.getSt]
  by_cases h1 : a.id ∈ s.delegated.mem
  · rw [if_pos h1, if_pos (Or.inl h1)]
    rfl
  · rw [if_neg h1]
    by_cases h2 : a.id ∈ s.handled.mem
    · rw [if_pos h2, if_pos (Or.inr h2)]
      rfl
    · rw [if_neg h2,
        if_neg (show ¬(a.id ∈ s.delegated.mem ∨ a.id ∈ s.handled.mem) by simp [h1, h2])]
      rw [bind_state, update_handled_run]
      dsimp only
      rcases hu : (updateBounded s.handled a.id).2 with _ | e
      · dsimp only
        by_cases hv : a.verb = "ban" ∨ a.verb = "kick" ∨ a.verb = "remove"
        · rw [if_pos hv, handle_local_state]
          by_cases hb : a.verb = "ban" ∧ user_is_on_this_node env a = false
          · rw [if_pos hb, if_pos ⟨rfl, hb⟩]
          · rw [if_neg hb,
              if_neg (show ¬((none : Option Exc) = none ∧ a.verb = "ban"
                ∧ user_is_on_this_node env a = false) from fun hc => hb ⟨hc.2.1, hc.2.2⟩)]
        · rw [if_neg hv,
            if_neg (show ¬((none : Option Exc) = none ∧ a.verb = "ban"
              ∧ user_is_on_this_node env a = false) from fun hc => hv (Or.inl hc.2.1))]
          exact stPres_publishExternal env "other" a.id _
      · rw [if_neg (show ¬((some e : Option Exc) = none ∧ a.verb = "ban"
            ∧ user_is_on_this_node env a = false) from fun hc => Option.noConfusion hc.1)]

/-- The dispatcher's entry point absorbs every error. -/
theorem handle_ok (env : QEnv) (a : Activity) (s : St) :
    (handle_server_activity env a s).1 = Except.ok () := by
  unfold handle_server_activity M.catchAll
  rcases h : handle_server_activity_inner env a s with ⟨r, s1, t1⟩
  cases r <;> simp [h]

/-- Dropping a duplicate: when the id is already in one of the dedup sets
the delivery is a complete no-op. -/
theorem handle_noop (env : QEnv) (a : Activity) (s : St)
    (h : a.id ∈ s.delegated.mem ∨ a.id ∈ s.handled.mem) :
    handle_server_activity env a s = (Except.ok (), s, []) := by
  unfold handle_server_activity M.catchAll handle_server_activity_inner
  simp only [mBind_def, mPure_def]
  unfold M.bind M.getSt
  dsimp only
  by_cases h1 : a.id ∈ s.delegated.mem
  · simp [h1, M.pure]
  · have h2 : a.id ∈ s.handled.mem := h.resolve_left h1
    simp [h1, h2, M.pure]

/-- After a delivery the id is in one of the dedup sets. -/
theorem mem_after_step (env : QEnv) (a : Activity) (s : St) (hinv : s.handled.inv) :
    a.id ∈ (stepSt env a s).delegated.mem ∨ a.id ∈ (stepSt env a s).handled.mem := by
  rw [stepSt_eq]
  unfold stepStSpec
  by_cases h : a.id ∈ s.delegated.mem ∨ a.id ∈ s.handled.mem
  · rw [if_pos h]
    exact h
  · rw [if_neg h]
    push_neg at h
    have hup := updateBounded_inv s.handled a.id hinv h.2
    dsimp only
    by_cases hc : (updateBounded s.handled a.id).2 = none ∧ a.verb = "ban"
        ∧ user_is_on_this_node env a = false
    · rw [if_pos hc]
      exact Or.inr hup.2.2
    · rw [if_neg hc]
      exact Or.inr hup.2.2

/-- Both dedup structures well-formed. -/
def StInv (s : St) : Prop := s.delegated.inv ∧ s.handled.inv

theorem stInv_init : StInv St.init := ⟨DQ.inv_init, DQ.inv_init⟩

theorem stInv_step (env : QEnv) (a : Activity) {s : St} (h : StInv s) :
    StInv (stepSt env a s) := by
  rw [stepSt_eq]
  unfold stepStSpec
  by_cases hm : a.id ∈ s.delegated.mem ∨ a.id ∈ s.handled.mem
  · rw [if_pos hm]
    exact h
  · rw [if_neg hm]
    push_neg at hm
    have hh := updateBounded_inv s.handled a.id h.2 hm.2
    dsimp only
    by_cases hc : (updateBounded s.handled a.id).2 = none ∧ a.verb = "ban"
        ∧ user_is_on_this_node env a = false
    · rw [if_pos hc]
      have hd := updateBounded_inv s.delegated a.id h.1 hm.1
      exact ⟨hd.2.1, hh.2.1⟩
    · rw [if_neg hc]
      exact ⟨h.1, hh.2.1⟩

/-- Every reachable dispatcher state has well-formed dedup structures. -/
theorem reach_stInv {s : St} (h : Reach s) : StInv s := by
  induction h with
  | init => exact stInv_init
  | step env a hr ih => exact stInv_step env a ih

end QueueHandler

namespace QueueHandler

/-- The scope-specific persistence event recorded by
`create_ban_even_if_not_on_this_node` for this envelope. -/
def banPersistEv (a : Activity) : Ev :=
  if a.target.objectType = some "room" then Ev.banRoom a.object.id a.target.id
  else if a.target.objectType = some "channel" then Ev.banChannel a.object.id a.target.id
  else Ev.banGlobal a.object.id

theorem banPersistEv_isPersist (a : Activity) : (banPersistEv a).isPersistBan = true := by
  unfold banPersistEv
  split
  · rfl
  · split <;> rfl

theorem banPersistEv_not_emit (a : Activity) : (banPersistEv a).isEmit = false := by
  unfold banPersistEv
  split
  · rfl
  · split <;> rfl

/-- `catchAll` always succeeds. -/
theorem catchAll_ok (m : M Unit) (s : St) : (M.catchAll m s).1 = Except.ok () := by
  unfold M.catchAll
  rcases h : m s with ⟨r, s1, t1⟩
  cases r <;> simp [h]

/-- Successful run of the ban-persistence routine: the normalized ban event
goes to the external bus first, then the scope-specific persistence call is
made. -/
theorem create_run_ok (env : QEnv) (a : Activity)
    (h1 : env.banDurationExc a.object.summary = none)
    (h2 : env.pubExternalExc = none)
    (h3 : env.dbBanExc = none) (s : St) :
    create_ban_even_if_not_on_this_node env a s
      = (Except.ok (), s, [Ev.pubExternal "ban" a.object.id, banPersistEv a]) := by
  unfold create_ban_even_if_not_on_this_node send_ban_event_to_external_queue
    publishExternal M.call banPersistEv
  simp only [h1, h2, h3, mBind_def, mPure_def]
  by_cases hr : a.target.objectType = some "room"
  · simp [hr, M.catchKey, M.bind, M.pure, M.tell]
  · by_cases hc : a.target.objectType = some "channel" <;>
      simp [hr, hc, M.catchKey, M.bind, M.pure, M.tell]

/-- A non-`KeyError` failure of the external-bus publish escapes the
ban-persistence routine before the persistence call is made. -/
theorem create_run_pubfail (env : QEnv) (a : Activity)
    (h1 : env.banDurationExc a.object.summary = none)
    (h2 : env.pubExternalExc = some Exc.otherError) (s : St) :
    create_ban_even_if_not_on_this_node env a s = (Except.error Exc.otherError, s, []) := by
  unfold create_ban_even_if_not_on_this_node send_ban_event_to_external_queue
    publishExternal M.call
  simp only [h1, h2, mBind_def, mPure_def]
  simp [M.catchKey, M.bind, M.pure, M.raise]

/-- Run of local-node ban handling when the victim is on this node and the
persistence routine succeeds: the external publish and the persistence call
happen first, then whatever `handle_ban` emits. -/
theorem handle_local_ban_on_node_run (env : QEnv) (a : Activity) (s : St)
    (hverb : a.verb = "ban") (hon : user_is_on_this_node env a = true)
    (h1 : env.banDurationExc a.object.summary = none)
    (h2 : env.pubExternalExc = none)
    (h3 : env.dbBanExc = none) :
    handle_local_node_events env a s
      = (Except.ok (), s,
         Ev.pubExternal "ban" a.object.id :: banPersistEv a
           :: (M.catchAll (handle_ban env a) s).2.2) := by
  unfold handle_local_node_events
  rw [if_pos hverb, if_pos hon]
  simp only [mBind_def]
  unfold M.bind
  rw [create_run_ok env a h1 h2 h3 s]
  rcases hca : M.catchAll (handle_ban env a) s with ⟨r, s2, t2⟩
  have hok : r = Except.ok () := by
    have := catchAll_ok (handle_ban env a) s
    rw [hca] at this
    exact this
  have hs2 : s2 = s := by
    have := stPres_catchAll (stPres_handle_ban env a) s
    rw [hca] at this
    exact this
  simp [hca, hok, hs2]

/-- Run of local-node ban handling when the victim is on this node but the
external-bus publish fails with a non-`KeyError`: the whole dispatch stops
with no recorded effect. -/
theorem handle_local_ban_pubfail_run (env : QEnv) (a : Activity) (s : St)
    (hverb : a.verb = "ban") (hon : user_is_on_this_node env a = true)
    (h1 : env.banDurationExc a.object.summary = none)
    (h2 : env.pubExternalExc = some Exc.otherError) :
    handle_local_node_events env a s = (Except.error Exc.otherError, s, []) := by
  unfold handle_local_node_events
  rw [if_pos hverb, if_pos hon]
  simp only [mBind_def]
  unfold M.bind
  rw [create_run_pubfail env a h1 h2 s]

/-- Run of local-node ban handling on a node that does not own the victim:
record the id as delegated, republish on the internal bus, then create the
ban (external publish followed by persistence) and stop. -/
theorem handle_local_ban_off_node_run (env : QEnv) (a : Activity) (s : St)
    (hverb : a.verb = "ban") (hon : user_is_on_this_node env a = false)
    (hd : (updateBounded s.delegated a.id).2 = none)
    (hpi : env.pubInternalExc = none)
    (h1 : env.banDurationExc a.object.summary = none)
    (h2 : env.pubExternalExc = none)
    (h3 : env.dbBanExc = none) :
    handle_local_node_events env a s
      = (Except.ok (), { s with delegated := (updateBounded s.delegated a.id).1 },
         [Ev.pubInternal a.id, Ev.pubExternal "ban" a.object.id, banPersistEv a]) := by
  unfold handle_local_node_events
  rw [if_pos hverb, if_neg (by simp [hon] : ¬ user_is_on_this_node env a = true)]
  simp only [mBind_def]
  unfold M.bind
  rw [update_delegated_run, hd]
  unfold publishInternal M.call
  rw [hpi]
  unfold M.tell
  dsimp only
  rw [create_run_ok env a h1 h2 h3]
  simp

/-- Full run of a fresh delivery (id in neither dedup set) of a
ban/kick/remove envelope: record the id as handled, then run local-node
handling from the updated state; the final state and trace are those of the
local handling, and the outcome is always success. -/
theorem handle_fresh_run (env : QEnv) (a : Activity) (s : St)
    (hd : a.id ∉ s.delegated.mem) (hh : a.id ∉ s.handled.mem)
    (hub : (updateBounded s.handled a.id).2 = none)
    (hv : a.verb = "ban" ∨ a.verb = "kick" ∨ a.verb = "remove") :
    handle_server_activity env a s
      = (Except.ok (),
         (handle_local_node_events env a
           { s with handled := (updateBounded s.handled a.id).1 }).2.1,
         (handle_local_node_events env a
           { s with handled := (updateBounded s.handled a.id).1 }).2.2) := by
  unfold handle_server_activity M.catchAll handle_server_activity_inner
  simp only [mBind_def, mPure_def]
  unfold M.bind M.getSt
  dsimp only
  rw [if_neg hd, if_neg hh, update_handled_run, hub]
  rw [if_pos hv]
  rcases hrun : handle_local_node_events env a
      { s with handled := (updateBounded s.handled a.id).1 } with ⟨r, s2, t2⟩
  cases r <;> simp [hrun]

end QueueHandler

/-! ## Request validator results (C5, C6, C8) -/

namespace RequestValidator

/-- A handler result is either the success triple `(True, None, None)` or a
failure with code 400. -/
def WellShaped (t : Triple) : Prop := t = accepted ∨ (t.1 = false ∧ t.2.1 = some 400)

theorem wellShaped_accepted : WellShaped accepted := Or.inl rfl

theorem wellShaped_rejected (m : String) : WellShaped (rejected m) := Or.inr ⟨rfl, rfl⟩

theorem wellShaped_fail (r : Option String) : WellShaped (false, some 400, r) :=
  Or.inr ⟨rfl, rfl⟩

theorem on_message_shape (env : VEnv) (a : Activity) : WellShaped (on_message env a) := by
  unfold on_message
  try dsimp only
  repeat' split
  all_goals first
    | exact wellShaped_accepted
    | exact wellShaped_rejected _
    | exact wellShaped_fail _

theorem on_delete_shape (env : VEnv) (a : Activity) : WellShaped (on_delete env a) := by
  unfold on_delete
  try dsimp only
  repeat' split
  all_goals first
    | exact wellShaped_accepted
    | exact wellShaped_rejected _
    | exact wellShaped_fail _

theorem on_login_shape (env : VEnv) (a : Activity) : WellShaped (on_login env a) := by
  unfold on_login
  try dsimp only
  repeat' split
  all_goals first
    | exact wellShaped_accepted
    | exact wellShaped_rejected _
    | exact wellShaped_fail _

theorem on_ban_shape (env : VEnv) (a : Activity) : WellShaped (on_ban env a) := by
  unfold on_ban
  try dsimp only
  repeat' split
  all_goals first
    | exact wellShaped_accepted
    | exact wellShaped_rejected _
    | exact wellShaped_fail _

theorem checkAcls_shape (env : VEnv) : ∀ l : List Attachment, WellShaped (checkAcls env l)
  | [] => wellShaped_accepted
  | at_ :: rest => by
    unfold checkAcls
    split
    · exact wellShaped_rejected _
    · split
      · exact wellShaped_rejected _
      · exact checkAcls_shape env rest

theorem on_set_acl_shape (env : VEnv) (a : Activity) : WellShaped (on_set_acl env a) := by
  unfold on_set_acl
  try dsimp only
  split
  · exact wellShaped_rejected _
  · exact checkAcls_shape env _

theorem on_join_shape (env : VEnv) (a : Activity) : WellShaped (on_join env a) := by
  unfold on_join
  try dsimp only
  repeat' split
  all_goals first
    | exact wellShaped_accepted
    | exact wellShaped_rejected _
    | exact wellShaped_fail _

theorem on_leave_shape (env : VEnv) (a : Activity) : WellShaped (on_leave env a) := by
  unfold on_leave
  try dsimp only
  split
  · exact wellShaped_rejected _
  · exact wellShaped_accepted

theorem on_list_channels_shape (env : VEnv) (a : Activity) :
    WellShaped (on_list_channels env a) := wellShaped_accepted

theorem on_list_rooms_shape (env : VEnv) (a : Activity) : WellShaped (on_list_rooms env a) := by
  unfold on_list_rooms
  try dsimp only
  split
  · exact wellShaped_rejected _
  · exact wellShaped_accepted

theorem on_users_in_room_shape (env : VEnv) (a : Activity) :
    WellShaped (on_users_in_room env a) := wellShaped_accepted

theorem on_history_shape (env : VEnv) (a : Activity) : WellShaped (on_history env a) := by
  unfold on_history
  try dsimp only
  repeat' split
  all_goals first
    | exact wellShaped_accepted
    | exact wellShaped_rejected _
    | exact wellShaped_fail _

theorem on_status_shape (env : VEnv) (a : Activity) : WellShaped (on_status env a) := by
  unfold on_status
  try dsimp only
  repeat' split
  all_goals first
    | exact wellShaped_accepted
    | exact wellShaped_rejected _
    | exact wellShaped_fail _

theorem on_get_acl_shape (env : VEnv) (a : Activity) : WellShaped (on_get_acl env a) :=
  wellShaped_accepted

theorem on_kick_shape (env : VEnv) (a : Activity) : WellShaped (on_kick env a) := by
  unfold on_kick
  try dsimp only
  repeat' split
  all_goals first
    | exact wellShaped_accepted
    | exact wellShaped_rejected _
    | exact wellShaped_fail _

theorem on_create_shape (env : VEnv) (a : Activity) : WellShaped (on_create env a) := by
  unfold on_create
  try dsimp only
  repeat' split
  all_goals first
    | exact wellShaped_accepted
    | exact wellShaped_rejected _
    | exact wellShaped_fail _

end RequestValidator

namespace RequestValidator

/-- A permissive base environment for concrete validator runs. -/
def VEnv.base : VEnv where
  roomExists := fun _ _ => true
  channelExists := fun _ => true
  roomNameExists := fun _ _ => false
  isOwner := fun _ _ => false
  isOwnerChannel := fun _ _ => false
  isModerator := fun _ _ => false
  isAdmin := fun _ => false
  isUserInRoom := fun _ _ => true
  canSendCrossGroup := fun _ _ => false
  userAllowedToDeleteMessage := fun _ _ => true
  isBanned := fun _ _ => (false, "")
  validateAcl := (true, none)
  validateRequest := (true, none)
  aclKeys := []
  isAclValid := fun _ _ => true
  validateLogin := fun _ _ => (true, none, [])
  session := []

/-- C8 (amended): every dispatched handler returns the triple
`(True, None, None)` on success, and on failure `ok` is false with code
400. -/
theorem handler_result_shapes (env : VEnv) (verb : String) (a : Activity) (t : Triple)
    (h : handleVerb env verb a = some t) :
    (t.1 = true → t = (true, none, none)) ∧ (t.1 = false → t.2.1 = some 400) := by
  have hs : WellShaped t := by
    unfold handleVerb at h
    by_cases hv0 : verb = "message"
    · rw [if_pos hv0] at h
      exact (Option.some.inj h) ▸ on_message_shape env a
    · rw [if_neg hv0] at h
      by_cases hv1 : verb = "delete"
      · rw [if_pos hv1] at h
        exact (Option.some.inj h) ▸ on_delete_shape env a
      · rw [if_neg hv1] at h
        by_cases hv2 : verb = "login"
        · rw [if_pos hv2] at h
          exact (Option.some.inj h) ▸ on_login_shape env a
        · rw [if_neg hv2] at h
          by_cases hv3 : verb = "ban"
          · rw [if_pos hv3] at h
            exact (Option.some.inj h) ▸ on_ban_shape env a
          · rw [if_neg hv3] at h
            by_cases hv4 : verb = "set_acl"
            · rw [if_pos hv4] at h
              exact (Option.some.inj h) ▸ on_set_acl_shape env a
            · rw [if_neg hv4] at h
              by_cases hv5 : verb = "join"
              · rw [if_pos hv5] at h
                exact (Option.some.inj h) ▸ on_join_shape env a
              · rw [if_neg hv5] at h
                by_cases hv6 : verb = "leave"
                · rw [if_pos hv6] at h
                  exact (Option.some.inj h) ▸ on_leave_shape env a
                · rw [if_neg hv6] at h
                  by_cases hv7 : verb = "list_channels"
                  · rw [if_pos hv7] at h
                    exact (Option.some.inj h) ▸ on_list_channels_shape env a
                  · rw [if_neg hv7] at h
                    by_cases hv8 : verb = "list_rooms"
                    · rw [if_pos hv8] at h
                      exact (Option.some.inj h) ▸ on_list_rooms_shape env a
                    · rw [if_neg hv8] at h
                      by_cases hv9 : verb = "users_in_room"
                      · rw [if_pos hv9] at h
                        exact (Option.some.inj h) ▸ on_users_in_room_shape env a
                      · rw [if_neg hv9] at h
                        by_cases hv10 : verb = "history"
                        · rw [if_pos hv10] at h
                          exact (Option.some.inj h) ▸ on_history_shape env a
                        · rw [if_neg hv10] at h
                          by_cases hv11 : verb = "status"
                          · rw [if_pos hv11] at h
                            exact (Option.some.inj h) ▸ on_status_shape env a
                          · rw [if_neg hv11] at h
                            by_cases hv12 : verb = "get_acl"
                            · rw [if_pos hv12] at h
                              exact (Option.some.inj h) ▸ on_get_acl_shape env a
                            · rw [if_neg hv12] at h
                              by_cases hv13 : verb = "kick"
                              · rw [if_pos hv13] at h
                                exact (Option.some.inj h) ▸ on_kick_shape env a
                              · rw [if_neg hv13] at h
                                by_cases hv14 : verb = "create"
                                · rw [if_pos hv14] at h
                                  exact (Option.some.inj h) ▸ on_create_shape env a
                                · rw [if_neg hv14] at h
                                  exact Option.noConfusion h
  rcases hs with h1 | ⟨hf, hc⟩
  · subst h1
    refine ⟨fun _ => rfl, fun hfalse => ?_⟩
    simp [accepted] at hfalse
  · refine ⟨fun ht => ?_, fun _ => hc⟩
    rw [ht] at hf
    cases hf

/-- A plain `list_channels` activity. -/
def actListChannels : Activity where
  id := "A8"
  verb := "list_channels"
  actor := ⟨some "U1", none, none, none⟩
  object := ⟨some "O1", none, none, none, none, []⟩
  target := ⟨some "T1", none, none, none⟩

/-- C8 (counterexample): a successful handler returns `(True, None, None)`;
the spec's success triple `(true, 0, "")` is not what the code returns. -/
theorem handler_success_triple_cex :
    handleVerb VEnv.base "list_channels" actListChannels = some (true, none, none)
      ∧ ((true, none, none) : Triple) ≠ ((true, some 0, some "") : Triple) :=
  ⟨rfl, by decide⟩

/-- Witness for `handler_result_shapes` at a concrete dispatch. -/
theorem handler_result_shapes_witness :
    (((true, none, none) : Triple).1 = true → ((true, none, none) : Triple)
        = (true, none, none))
      ∧ (((true, none, none) : Triple).1 = false
          → ((true, none, none) : Triple).2.1 = some 400) :=
  handler_result_shapes VEnv.base "list_channels" actListChannels (true, none, none) rfl

end RequestValidator

namespace RequestValidator

theorem rejected_ne_accepted (m : String) : rejected m ≠ accepted :=
  fun h => Bool.noConfusion (congrArg Prod.fst h)

/-- C5 (amended): `on_kick` rejects with 400 on blank channel/room/user id
or a missing room, and otherwise accepts iff the user named by
`target.displayName` — the user being kicked, not the acting user — holds
one of the four roles. -/
theorem on_kick_characterization (env : VEnv) (a : Activity) :
    (on_kick env a = accepted ↔
      pyBlank a.object.url = false ∧ pyBlank a.target.id = false ∧
      pyBlank a.target.displayName = false ∧
      env.roomExists a.object.url a.target.id = true ∧
      (env.isOwner a.target.id a.target.displayName = true
        ∨ env.isOwnerChannel a.object.url a.target.displayName = true
        ∨ env.isModerator a.target.id a.target.displayName = true
        ∨ env.isAdmin a.target.displayName = true))
    ∧ (on_kick env a ≠ accepted → ∃ m, on_kick env a = rejected m) := by
  constructor
  · unfold on_kick
    try dsimp only
    split_ifs with h1 h2 h3 h4 h5 h6 h7 h8 <;> simp_all [accepted, rejected]
    all_goals exact rejected_ne_accepted _
  · unfold on_kick
    try dsimp only
    split_ifs <;> first
      | exact fun hne => absurd rfl hne
      | exact fun _ => ⟨_, rfl⟩

/-- An environment where only the kicked user (`target.displayName`) is a
room owner and nobody is channel owner, moderator or admin. -/
def envKick : VEnv :=
  { VEnv.base with isOwner := fun _ u => decide (u = some "kicked") }

/-- A kick issued by `kicker` against `kicked` in room `R1` of channel
`C1`. -/
def actKick : Activity where
  id := "A5"
  verb := "kick"
  actor := ⟨some "kicker", none, none, none⟩
  object := ⟨some "kicked", some "C1", none, none, none, []⟩
  target := ⟨some "R1", none, none, some "kicked"⟩

/-- C5 (counterexample): the kick is accepted although the kicker (the
acting user, `actor.id = "kicker"`) holds none of the four roles; the roles
consulted are those of the kicked user (`target.displayName`). -/
theorem on_kick_ignores_kicker_roles :
    on_kick envKick actKick = accepted
      ∧ envKick.isOwner (some "R1") (some "kicker") = false
      ∧ envKick.isOwnerChannel (some "C1") (some "kicker") = false
      ∧ envKick.isModerator (some "R1") (some "kicker") = false
      ∧ envKick.isAdmin (some "kicker") = false :=
  ⟨by decide, by decide, rfl, rfl, rfl⟩

/-- Witness for `on_kick_characterization` at a concrete kick. -/
theorem on_kick_characterization_witness :
    (on_kick envKick actKick = accepted ↔
      pyBlank actKick.object.url = false ∧ pyBlank actKick.target.id = false ∧
      pyBlank actKick.target.displayName = false ∧
      envKick.roomExists actKick.object.url actKick.target.id = true ∧
      (envKick.isOwner actKick.target.id actKick.target.displayName = true
        ∨ envKick.isOwnerChannel actKick.object.url actKick.target.displayName = true
        ∨ envKick.isModerator actKick.target.id actKick.target.displayName = true
        ∨ envKick.isAdmin actKick.target.displayName = true))
    ∧ (on_kick envKick actKick ≠ accepted → ∃ m, on_kick envKick actKick = rejected m) :=
  on_kick_characterization envKick actKick

/-- C6 (amended): `on_ban` requires a non-blank banned id and — for every
scope, including global bans where the room id is absent — a successful
`room_exists(channel, room)` lookup; past those checks a room-scoped ban
needs room ownership and a global ban needs a global admin. -/
theorem on_ban_characterization (env : VEnv) (a : Activity) :
    (on_ban env a = accepted ↔
      pyBlank a.object.id = false ∧
      env.roomExists a.object.url a.target.id = true ∧
      ((a.target.id = none ∨ a.target.id = some "") → env.isAdmin a.actor.id = true) ∧
      (¬ (a.target.id = none ∨ a.target.id = some "")
        → env.isOwner a.target.id a.actor.id = true))
    ∧ (on_ban env a ≠ accepted → ∃ m, on_ban env a = rejected m) := by
  constructor
  · unfold on_ban
    try dsimp only
    split_ifs with h1 h2 h3 h4 h5 <;> simp_all [accepted, rejected]
    all_goals exact rejected_ne_accepted _
  · unfold on_ban
    try dsimp only
    split_ifs <;> first
      | exact fun hne => absurd rfl hne
      | exact fun _ => ⟨_, rfl⟩

/-- An environment where every user is a global admin but the room lookup
only knows room `R1`. -/
def envBanVal : VEnv :=
  { VEnv.base with
    roomExists := fun _ r => decide (r = some "R1")
    isAdmin := fun _ => true }

/-- A global ban: `target.id` absent, banned user `U2`, issued by `U1`. -/
def actGlobalBan : Activity where
  id := "A6"
  verb := "ban"
  actor := ⟨some "U1", none, none, none⟩
  object := ⟨some "U2", some "C1", none, some "1h", none, []⟩
  target := ⟨none, none, none, none⟩

/-- C6 (counterexample): a global ban issued by an admin is rejected because
the `room_exists` check runs unconditionally, with the absent room id. -/
theorem on_ban_global_requires_room :
    on_ban envBanVal actGlobalBan = rejected "no room with id \"None\" exists"
      ∧ envBanVal.isAdmin actGlobalBan.actor.id = true
      ∧ actGlobalBan.target.id = none :=
  ⟨by decide, rfl, rfl⟩

/-- Witness for `on_ban_characterization` at a concrete ban. -/
theorem on_ban_characterization_witness :
    (on_ban envBanVal actGlobalBan = accepted ↔
      pyBlank actGlobalBan.object.id = false ∧
      envBanVal.roomExists actGlobalBan.object.url actGlobalBan.target.id = true ∧
      ((actGlobalBan.target.id = none ∨ actGlobalBan.target.id = some "")
        → envBanVal.isAdmin actGlobalBan.actor.id = true) ∧
      (¬ (actGlobalBan.target.id = none ∨ actGlobalBan.target.id = some "")
        → envBanVal.isOwner actGlobalBan.target.id actGlobalBan.actor.id = true))
    ∧ (on_ban envBanVal actGlobalBan ≠ accepted
        → ∃ m, on_ban envBanVal actGlobalBan = rejected m) :=
  on_ban_characterization envBanVal actGlobalBan

end RequestValidator

/-! ## ACL evaluation results (C7) -/

/-- C7: ACL evaluation is a disjunction of conjunctions — an expression
holds iff some clause exists whose terms all hold on the session — and in
particular `age=!65:|gender=m,membership=n` is valid for a session with
gender `m`, membership `n` and age 30, the first clause matching through
the negated open range. -/
theorem evalAcl_dnf :
    (∀ (cfg : AclCfg) (s : Session) (e : String),
      evalAcl cfg s e = true ↔
        ∃ c ∈ clausesOf e, ∀ t ∈ termsOf c, termHolds cfg s t = true)
    ∧ evalAcl testAclCfg [("gender", "m"), ("membership", "n"), ("age", "30")]
        "age=!65:|gender=m,membership=n" = true
    ∧ termHolds testAclCfg [("gender", "m"), ("membership", "n"), ("age", "30")]
        "age=!65:" = true := by
  refine ⟨?_, by decide, by decide⟩
  intro cfg s e
  unfold evalAcl clauseHolds
  simp [List.any_eq_true, List.all_eq_true]

/-- The modelled evaluator reproduces the ACL test suite's expectations on
the grammar-conformant patterns, with the test session
(age 61, gender f, membership n). -/
theorem evalAcl_matches_test_suite :
    evalAcl testAclCfg testSession "gender=f" = true
      ∧ evalAcl testAclCfg testSession "gender=!f" = false
      ∧ evalAcl testAclCfg testSession "gender=f,age=55:65" = true
      ∧ evalAcl testAclCfg testSession "gender=f,age=!55:65" = false
      ∧ evalAcl testAclCfg testSession "gender=!m,age=!:35" = true
      ∧ evalAcl testAclCfg testSession "gender=!m,age=!25:35" = true
      ∧ evalAcl testAclCfg testSession "gender=f,membership=tg" = false
      ∧ evalAcl testAclCfg testSession "gender=f,membership=!tg" = true
      ∧ evalAcl testAclCfg testSession "gender=f,membership=n" = true
      ∧ evalAcl testAclCfg testSession "gender=f,membership=!n" = false
      ∧ evalAcl testAclCfg testSession "age=60:|gender=f,membership=tg" = true
      ∧ evalAcl testAclCfg testSession "age=!60:|gender=f,membership=tg" = false
      ∧ evalAcl testAclCfg testSession "age=65:|gender=f,membership=tg" = false
      ∧ evalAcl testAclCfg testSession "age=65:|gender=f,membership=n" = true
      ∧ evalAcl testAclCfg testSession "age=65:|gender=!f,membership=n" = false
      ∧ evalAcl testAclCfg testSession "age=65:|gender=m,membership=n" = false
      ∧ evalAcl testAclCfg testSession "age=!65:|gender=m,membership=n" = true
      ∧ evalAcl testAclCfg testSession "gender=m|age=:25" = false
      ∧ evalAcl testAclCfg testSession "gender=m|age=25:" = true := by
  decide

/-! ## `count_users_in_rooms` results (C9) -/

/-- C9 (counterexample): under an `rdbms` configuration whose driver is
neither postgres nor mysql (e.g. sqlite), the job writes 0 to
`users:online:inrooms` even though the memberships table holds one distinct
user. -/
theorem count_users_ignores_other_drivers :
    count_users_in_rooms ⟨"rdbms", "sqlite", [("u1", "r1")]⟩
        = ("users:online:inrooms", 0)
      ∧ distinctUserCount [("u1", "r1")] = 1 ∧ (0 : Nat) ≠ 1 :=
  ⟨by decide, by decide, by decide⟩

/-- C9 (amended): the job always writes to the cache key
`users:online:inrooms`; the value is the distinct `user_id` count exactly
when the database type is `rdbms` with a postgres or mysql driver, and 0
for every other configuration. -/
theorem count_users_write (cfg : JobConfig) :
    count_users_in_rooms cfg
      = ("users:online:inrooms",
         if cfg.dbtype = "rdbms"
            ∧ (pyStartsWith cfg.driver "postgres" = true
              ∨ pyStartsWith cfg.driver "mysql" = true)
         then distinctUserCount cfg.memberships else 0) := by
  unfold count_users_in_rooms
  by_cases h1 : cfg.dbtype = "rdbms"
  · by_cases h2 : pyStartsWith cfg.driver "postgres" = true
    · simp [h1, h2]
    · by_cases h3 : pyStartsWith cfg.driver "mysql" = true <;> simp [h1, h2, h3]
  · simp [h1]

/-! ## Moderation dispatcher results (C1, C2, C3, C4, C10) -/

namespace QueueHandler

/-- In a trace that starts with two non-broadcast events, every broadcast
emission sits at index 2 or later. -/
theorem emit_late {l : List Ev} {e0 e1 : Ev} {rest : List Ev}
    (hl : l = e0 :: e1 :: rest) (h0 : e0.isEmit = false) (h1 : e1.isEmit = false) :
    ∀ i (hi : i < l.length), (l.get ⟨i, hi⟩).isEmit = true → 2 ≤ i := by
  subst hl
  intro i hi he
  match i with
  | 0 =>
    have hg : (e0 :: e1 :: rest).get ⟨0, hi⟩ = e0 := rfl
    rw [hg, h0] at he
    cases he
  | 1 =>
    have hg : (e0 :: e1 :: rest).get ⟨1, hi⟩ = e1 := rfl
    rw [hg, h1] at he
    cases he
  | j + 2 => omega

/-- An `app` node owning the victim's session: room `R1` holds the victim's
sid, every lookup succeeds, and no port call fails. -/
def envBanRoom : QEnv where
  node := "app"
  sioRooms := fun ns =>
    if ns = some "/ws" then some [("R1", ["sidU2"]), ("sidU2", ["sidU2"])] else none
  sidFor := fun u => if u = some "U2" then some "sidU2" else none
  userName := fun _ => some "name"
  roomsForUser := fun _ => [("R1", "Room1")]
  roomsForChannel := fun _ => []
  undeleted := fun _ _ => []
  banDurationExc := fun _ => none
  pubInternalExc := none
  pubExternalExc := none
  dbBanExc := none
  emitExc := fun _ _ => none

/-- A room-scoped ban envelope: admin (`actor.id = "0"`) bans `U2` from
room `R1` for one hour. -/
def actBanRoom : Activity where
  id := "A1"
  verb := "ban"
  actor := ⟨some "0", none, none, none⟩
  object := ⟨some "U2", none, none, some "1h", some "U2", []⟩
  target := ⟨some "R1", none, some "room", some "Room1"⟩

/-- C1 (counterexample): in a successful local ban handling the normalized
ban event reaches the external bus (trace index 0) strictly before the ban
is persisted (trace index 1) — the claim's persist-before-external-publish
ordering fails, while persistence still precedes every broadcast. -/
theorem ban_external_publish_before_persist :
    traceOf envBanRoom actBanRoom St.init
      = [Ev.pubExternal "ban" (some "U2"), Ev.banRoom (some "U2") (some "R1"),
         Ev.emit "gn_user_banned" (some "R1"), Ev.emit "gn_user_kicked" (some "R1"),
         Ev.pubExternal "kick" (some "U2"), Ev.sioLeaveRoom "sidU2" "R1",
         Ev.dbLeaveRoom (some "U2") "R1", Ev.emit "gn_banned" (some "sidU2")]
      ∧ (traceOf envBanRoom actBanRoom St.init).indexOf
            (Ev.pubExternal "ban" (some "U2")) = 0
      ∧ (traceOf envBanRoom actBanRoom St.init).indexOf
            (Ev.banRoom (some "U2") (some "R1")) = 1 :=
  ⟨by decide, by decide, by decide⟩

/-- C1 (amended): in every successful local handling of a fresh ban
envelope on the owning node, the normalized ban event is published to the
external bus first, the persistence call comes immediately after it, and
every broadcast emission comes after the persistence call. -/
theorem ban_persist_before_broadcast (env : QEnv) (a : Activity) (s : St)
    (hinv : s.handled.inv)
    (hd : a.id ∉ s.delegated.mem) (hh : a.id ∉ s.handled.mem)
    (hverb : a.verb = "ban") (hon : user_is_on_this_node env a = true)
    (h1 : env.banDurationExc a.object.summary = none)
    (h2 : env.pubExternalExc = none) (h3 : env.dbBanExc = none) :
    (∃ rest, traceOf env a s
        = Ev.pubExternal "ban" a.object.id :: banPersistEv a :: rest)
      ∧ (banPersistEv a).isPersistBan = true
      ∧ ∀ i (hi : i < (traceOf env a s).length),
          ((traceOf env a s).get ⟨i, hi⟩).isEmit = true → 2 ≤ i := by
  have hub := (updateBounded_inv s.handled a.id hinv hh).1
  have hrun := handle_fresh_run env a s hd hh hub (Or.inl hverb)
  have hloc := handle_local_ban_on_node_run env a
    { s with handled := (updateBounded s.handled a.id).1 } hverb hon h1 h2 h3
  have htr : traceOf env a s
      = Ev.pubExternal "ban" a.object.id :: banPersistEv a
        :: (M.catchAll (handle_ban env a)
              { s with handled := (updateBounded s.handled a.id).1 }).2.2 := by
    unfold traceOf
    rw [hrun]
    dsimp only
    rw [hloc]
  exact ⟨⟨_, htr⟩, banPersistEv_isPersist a,
    emit_late htr rfl (banPersistEv_not_emit a)⟩

/-- Witness for `ban_persist_before_broadcast` on a fresh dispatcher. -/
theorem ban_persist_before_broadcast_witness :
    (∃ rest, traceOf envBanRoom actBanRoom St.init
        = Ev.pubExternal "ban" actBanRoom.object.id :: banPersistEv actBanRoom :: rest)
      ∧ (banPersistEv actBanRoom).isPersistBan = true
      ∧ ∀ i (hi : i < (traceOf envBanRoom actBanRoom St.init).length),
          ((traceOf envBanRoom actBanRoom St.init).get ⟨i, hi⟩).isEmit = true → 2 ≤ i :=
  ban_persist_before_broadcast envBanRoom actBanRoom St.init DQ.inv_init
    (by decide) (by decide) rfl (by decide) rfl rfl rfl

/-- C2: in every reachable dispatcher state both dedup structures hold at
most 100 ids (list and companion set alike), and an insertion into a full
list evicts exactly the oldest id from both the list and the set. -/
theorem dedup_bound_and_eviction :
    (∀ s : St, Reach s →
      s.delegated.lst.length ≤ 100 ∧ s.delegated.mem.card ≤ 100
        ∧ s.handled.lst.length ≤ 100 ∧ s.handled.mem.card ≤ 100)
      ∧ (∀ (x : String) (l : List String) (mem : Finset String) (aid : String),
          (x :: l).length = 100 → x ∈ insert aid mem →
          updateBounded ⟨x :: l, mem⟩ aid
            = (⟨l ++ [aid], (insert aid mem).erase x⟩, none)) := by
  constructor
  · intro s hs
    obtain ⟨⟨_, dmem, dlen⟩, ⟨_, hmem2, hlen2⟩⟩ := reach_stInv hs
    refine ⟨dlen, ?_, hlen2, ?_⟩
    · rw [dmem]
      exact le_trans (List.toFinset_card_le _) dlen
    · rw [hmem2]
      exact le_trans (List.toFinset_card_le _) hlen2
  · exact updateBounded_evict

/-- Witness for `dedup_bound_and_eviction`: the initial state, and an
eviction from a concrete full list. -/
theorem dedup_bound_and_eviction_witness :
    (St.init.delegated.lst.length ≤ 100 ∧ St.init.delegated.mem.card ≤ 100
        ∧ St.init.handled.lst.length ≤ 100 ∧ St.init.handled.mem.card ≤ 100)
      ∧ updateBounded ⟨"a0" :: List.replicate 99 "b", {"a0"}⟩ "c"
          = (⟨List.replicate 99 "b" ++ ["c"],
              (insert "c" ({"a0"} : Finset String)).erase "a0"⟩, none) :=
  ⟨dedup_bound_and_eviction.1 St.init Reach.init,
   dedup_bound_and_eviction.2 "a0" (List.replicate 99 "b") {"a0"} "c"
     (by decide) (by decide)⟩

/-- C3: delivering the same envelope `n` times (1 ≤ n ≤ 101) to a
dispatcher in a well-formed state is indistinguishable — same final state,
same trace of persisted and broadcast effects, same outcome — from
delivering it once: every delivery after the first is dropped by the dedup
checks before any side effect. -/
theorem dedup_idempotent (env : QEnv) (a : Activity) (s : St) (n : Nat)
    (hinv : StInv s) (hn1 : 1 ≤ n) (hn2 : n ≤ 101) :
    deliverN env a n s = deliverN env a 1 s := by
  obtain ⟨k, rfl⟩ : ∃ k, n = k + 1 := ⟨n - 1, by omega⟩
  have noopN : ∀ (m : Nat) (s' : St),
      a.id ∈ s'.delegated.mem ∨ a.id ∈ s'.handled.mem →
      deliverN env a m s' = (Except.ok (), s', []) := by
    intro m
    induction m with
    | zero => intro s' _; rfl
    | succ j ih =>
      intro s' hmem
      show M.bind (handle_server_activity env a) (fun _ => deliverN env a j) s' = _
      unfold M.bind
      rw [handle_noop env a s' hmem]
      dsimp only
      rw [ih s' hmem]
      simp
  rcases hrun : handle_server_activity env a s with ⟨r, s1, t1⟩
  have hok : r = Except.ok () := by
    have := handle_ok env a s
    rw [hrun] at this
    exact this
  subst hok
  have hs1 : s1 = stepSt env a s := by
    unfold stepSt
    rw [hrun]
  have hmem : a.id ∈ s1.delegated.mem ∨ a.id ∈ s1.handled.mem := by
    rw [hs1]
    exact mem_after_step env a s hinv.2
  have lhs : deliverN env a (k + 1) s = (Except.ok (), s1, t1 ++ []) := by
    show M.bind (handle_server_activity env a) (fun _ => deliverN env a k) s = _
    unfold M.bind
    rw [hrun]
    dsimp only
    rw [noopN k s1 hmem]
  have rhs : deliverN env a 1 s = (Except.ok (), s1, t1 ++ []) := by
    show M.bind (handle_server_activity env a) (fun _ => deliverN env a 0) s = _
    unfold M.bind
    rw [hrun]
    dsimp only
    rfl
  rw [lhs, rhs]

/-- Witness for `dedup_idempotent`: two deliveries of the concrete ban
envelope equal one. -/
theorem dedup_idempotent_witness :
    deliverN envBanRoom actBanRoom 2 St.init = deliverN envBanRoom actBanRoom 1 St.init :=
  dedup_idempotent envBanRoom actBanRoom St.init 2 stInv_init (by decide) (by decide)

end QueueHandler

namespace QueueHandler

/-- The on-node ban environment with a failing external-bus publish; the
persistence call itself is configured to succeed. -/
def envBanPubFail : QEnv := { envBanRoom with pubExternalExc := some Exc.otherError }

/-- C4 (counterexample): with the external-bus publish failing (a
non-`KeyError`) and the persistence call configured to succeed, the whole
ban dispatch aborts with an empty effect trace — no persistence, no
broadcast — so ban-persistence failure is not the only non-fatal error that
aborts a ban dispatch. -/
theorem ban_abort_on_external_publish_failure :
    handle_server_activity envBanPubFail actBanRoom St.init
        = (Except.ok (), ⟨⟨[], ∅⟩, ⟨["A1"], {"A1"}⟩⟩, [])
      ∧ envBanPubFail.dbBanExc = none :=
  ⟨by rfl, rfl⟩

/-- C4 (amended): the dispatcher absorbs every error at its entry point and
records each fresh envelope as handled before verb handling begins; any
non-`KeyError` failure escaping the ban-persistence routine — here the
external-bus publish, which runs before the persistence call — aborts the
rest of that envelope's dispatch with no recorded effect. -/
theorem dispatcher_error_policy :
    (∀ (env : QEnv) (a : Activity) (s : St),
        (handle_server_activity env a s).1 = Except.ok ())
    ∧ (∀ (env : QEnv) (a : Activity) (s : St), s.handled.inv →
        a.id ∉ s.delegated.mem → a.id ∉ s.handled.mem →
        a.id ∈ (stepSt env a s).handled.mem)
    ∧ (∀ (env : QEnv) (a : Activity) (s : St), s.handled.inv →
        a.id ∉ s.delegated.mem → a.id ∉ s.handled.mem →
        a.verb = "ban" → user_is_on_this_node env a = true →
        env.banDurationExc a.object.summary = none →
        env.pubExternalExc = some Exc.otherError →
        traceOf env a s = []) := by
  refine ⟨handle_ok, ?_, ?_⟩
  · intro env a s hinv hd hh
    rw [stepSt_eq]
    unfold stepStSpec
    rw [if_neg (show ¬(a.id ∈ s.delegated.mem ∨ a.id ∈ s.handled.mem) by
      simp [hd, hh])]
    have hup := updateBounded_inv s.handled a.id hinv hh
    dsimp only
    by_cases hc : (updateBounded s.handled a.id).2 = none ∧ a.verb = "ban"
        ∧ user_is_on_this_node env a = false
    · rw [if_pos hc]
      exact hup.2.2
    · rw [if_neg hc]
      exact hup.2.2
  · intro env a s hinv hd hh hverb hon h1 h2
    have hub := (updateBounded_inv s.handled a.id hinv hh).1
    have hrun := handle_fresh_run env a s hd hh hub (Or.inl hverb)
    have hloc := handle_local_ban_pubfail_run env a
      { s with handled := (updateBounded s.handled a.id).1 } hverb hon h1 h2
    unfold traceOf
    rw [hrun]
    dsimp only
    rw [hloc]

/-- Witness for `dispatcher_error_policy` at concrete inputs. -/
theorem dispatcher_error_policy_witness :
    ((handle_server_activity envBanRoom actBanRoom St.init).1 = Except.ok ())
      ∧ actBanRoom.id ∈ (stepSt envBanRoom actBanRoom St.init).handled.mem
      ∧ traceOf envBanPubFail actBanRoom St.init = [] :=
  ⟨dispatcher_error_policy.1 envBanRoom actBanRoom St.init,
   dispatcher_error_policy.2.1 envBanRoom actBanRoom St.init DQ.inv_init
     (by decide) (by decide),
   dispatcher_error_policy.2.2 envBanPubFail actBanRoom St.init DQ.inv_init
     (by decide) (by decide) rfl (by decide) rfl rfl⟩

/-- A REST/admin node: the node name is not `app`. -/
def envRestNode : QEnv := { envBanRoom with node := "web" }

/-- C10: on a node whose name is not `app`, `user_is_on_this_node` is false
for every activity; a fresh ban envelope handled there is recorded as
delegated and republished on the internal bus, the normalized ban event is
published externally and the ban persisted — and those three port calls are
the entire effect trace, so no broadcast, kick or message purge happens on
that node. -/
theorem rest_node_ban_delegates (env : QEnv) (a : Activity) (s : St)
    (hnode : env.node ≠ "app") (hverb : a.verb = "ban")
    (hinv : StInv s) (hd : a.id ∉ s.delegated.mem) (hh : a.id ∉ s.handled.mem)
    (hpi : env.pubInternalExc = none)
    (h1 : env.banDurationExc a.object.summary = none)
    (h2 : env.pubExternalExc = none) (h3 : env.dbBanExc = none) :
    user_is_on_this_node env a = false
      ∧ ∃ s2 : St, handle_server_activity env a s
          = (Except.ok (), s2,
             [Ev.pubInternal a.id, Ev.pubExternal "ban" a.object.id, banPersistEv a])
        ∧ a.id ∈ s2.delegated.mem ∧ a.id ∈ s2.handled.mem
        ∧ (banPersistEv a).isPersistBan = true := by
  have hon : user_is_on_this_node env a = false := by
    unfold user_is_on_this_node
    rw [if_pos hnode]
  refine ⟨hon, ?_⟩
  have hub := (updateBounded_inv s.handled a.id hinv.2 hh).1
  have hdel := updateBounded_inv s.delegated a.id hinv.1 hd
  have hrun := handle_fresh_run env a s hd hh hub (Or.inl hverb)
  have hloc := handle_local_ban_off_node_run env a
    { s with handled := (updateBounded s.handled a.id).1 } hverb hon hdel.1 hpi h1 h2 h3
  refine ⟨⟨(updateBounded s.delegated a.id).1, (updateBounded s.handled a.id).1⟩,
    ?_, ?_, ?_, banPersistEv_isPersist a⟩
  · rw [hrun, hloc]
  · exact hdel.2.2
  · exact (updateBounded_inv s.handled a.id hinv.2 hh).2.2

/-- Witness for `rest_node_ban_delegates` on a concrete REST node. -/
theorem rest_node_ban_delegates_witness :
    user_is_on_this_node envRestNode actBanRoom = false
      ∧ ∃ s2 : St, handle_server_activity envRestNode actBanRoom St.init
          = (Except.ok (), s2,
             [Ev.pubInternal actBanRoom.id,
              Ev.pubExternal "ban" actBanRoom.object.id, banPersistEv actBanRoom])
        ∧ actBanRoom.id ∈ s2.delegated.mem ∧ actBanRoom.id ∈ s2.handled.mem
        ∧ (banPersistEv actBanRoom).isPersistBan = true :=
  rest_node_ban_delegates envRestNode actBanRoom St.init (by decide) rfl
    stInv_init (by decide) (by decide) rfl rfl rfl rfl

end QueueHandler
